import Mathlib

/-!
# The geesefs mounter of k8s-csi-s3 (`pkg/mounter/geesefs.go`)

A shallow embedding of `geesefsMounter`: `CopyBinary`, `Mount`, `MountPod`,
`MountDirect` and `MountSystemd`.  The functions run over an explicit `World`
(file system, process environment, the lazily initialised cluster client and
the trace of calls made to the outside) and a `Host` that answers the calls
to the collaborators the file does not define (the service bus, the cluster
API, `waitForMount`, `fuseMount`, failures of file-system calls).

Go errors are carried as their message, `none` being `nil`.  `glog` calls are
not part of the model.
-/

namespace Mounter

/-! ## Data model -/

/-- Go `error`, by message; `none` is `nil`. -/
abbrev Error := Option String

/-- The fields of `s3.FSMeta` that `geesefs.go` reads. -/
structure FSMeta where
  BucketName : String
  Prefix : String
  MountOptions : List String
  deriving DecidableEq, Repr

/-- The receiver `geesefsMounter`. -/
structure geesefsMounter where
  meta : FSMeta
  endpoint : String
  region : String
  accessKeyID : String
  secretAccessKey : String
  deriving DecidableEq, Repr

/-- One record of the `ExecStart` property as `go-systemd` sends it. -/
structure ExecStartRec where
  Path : String
  Args : List String
  UncleanIsFailure : Bool
  deriving DecidableEq, Repr

/-- The values `dbus.MakeVariant` is applied to in `MountSystemd`. -/
inductive Variant
  | str (s : String)
  | strs (l : List String)
  | execStarts (l : List ExecStartRec)
  deriving DecidableEq, Repr

/-- A `systemd.Property`. -/
structure Property where
  Name : String
  Value : Variant
  deriving DecidableEq, Repr

/-- The library helper `systemd.PropExecStart(command, uncleanIsFailure)`:
one record whose path is `command[0]` and whose arguments are `command`. -/
def PropExecStart (command : List String) (uncleanIsFailure : Bool) : Property :=
  { Name := "ExecStart",
    Value := .execStarts [{ Path := command.headD "", Args := command,
                            UncleanIsFailure := uncleanIsFailure }] }

/-- A field of a decoded bus record (`interface{}` inside `[][]interface{}`). -/
inductive Field
  | str (s : String)
  | strs (l : List String)
  | bool (b : Bool)
  | uint (n : Nat)
  | other
  deriving DecidableEq, Repr

/-- A decoded bus property value (`interface{}` in the map returned by
`GetAllProperties`). -/
inductive PropValue
  | str (s : String)
  | strs (l : List String)
  | recs (l : List (List Field))
  | other
  deriving DecidableEq, Repr

/-- The map returned by `GetAllProperties`; an absent key reads as `none`. -/
abbrev UnitProps := String → Option PropValue

structure EnvVar where
  Name : String
  Value : String
  deriving DecidableEq, Repr

structure VolumeMount where
  Name : String
  MountPath : String
  MountPropagation : Option String
  deriving DecidableEq, Repr

structure SecurityContext where
  Privileged : Option Bool
  CapabilitiesAdd : List String
  deriving DecidableEq, Repr

structure Container where
  Name : String
  Image : String
  Command : List String
  Args : List String
  Env : List EnvVar
  VolumeMounts : List VolumeMount
  SecurityContext : Option SecurityContext
  deriving DecidableEq, Repr

structure Volume where
  Name : String
  HostPath : String
  HostPathType : Option String
  deriving DecidableEq, Repr

/-- The `api.Pod` literal of `MountPod`, field by field. -/
structure Pod where
  Kind : String
  APIVersion : String
  Namespace : String
  Name : String
  Containers : List Container
  RestartPolicy : String
  Volumes : List Volume
  NodeName : String
  deriving DecidableEq, Repr

/-- Calls that leave the process, in the order they are made. -/
inductive Event
  | stat (path : String)
  | remove (path : String)
  | readFile (path : String)
  | writeFile (path : String) (data : List Nat) (perm : Nat)
  | chtimes (path : String) (atime mtime : Int)
  | setenv (key value : String)
  | systemdNew
  | connClose
  | getAllProperties (unit : String)
  | stopUnit (unit mode : String)
  | resetFailedUnit (unit : String)
  | startTransientUnit (unit mode : String) (props : List Property)
  | inClusterConfig
  | newForConfig
  | podsDelete (ns name : String)
  | podsCreate (ns : String) (pod : Pod)
  | waitForMount (target : String) (timeout : Nat)
  | fuseMount (target command : String) (args : List String)
  deriving DecidableEq, Repr

/-- A regular file: its bytes and its two timestamps (nanoseconds). -/
structure File where
  data : List Nat
  modTime : Int
  accTime : Int
  deriving DecidableEq, Repr

/-- What `os.Stat` reports and `CopyBinary` reads: `Size()` and `ModTime()`. -/
structure FileInfo where
  size : Nat
  modTime : Int
  deriving DecidableEq, Repr

/-- An error of `os.Stat`, with the answer of `os.IsNotExist`. -/
structure OsError where
  msg : String
  notExist : Bool
  deriving DecidableEq, Repr

/-- The file-system calls of `CopyBinary`, as keys for injected failures. -/
inductive FsOp
  | stat (path : String)
  | remove (path : String)
  | readFile (path : String)
  | writeFile (path : String)
  | chtimes (path : String)
  deriving DecidableEq, Repr

/-- The collaborators outside `geesefs.go`, as answers to its calls. -/
structure Host where
  /-- a failure of a file-system call other than "does not exist", as the full
  text of the error the call returns (`op path: reason`) -/
  fsFault : FsOp → Option String
  /-- the time a written file is stamped with -/
  now : Int
  /-- `systemd.PathBusEscape` -/
  pathBusEscape : String → String
  /-- `filepath.Dir` -/
  filepathDir : String → String
  /-- the error of `systemd.New()` -/
  systemdNew : Error
  /-- `conn.GetAllProperties(unitName)` -/
  getAllProperties : String → Except String UnitProps
  /-- the error of `conn.StartTransientUnit(unitName, ...)` -/
  startTransientUnit : String → List Property → Error
  /-- the error of `rest.InClusterConfig()` -/
  inClusterConfig : Error
  /-- the error of `kubernetes.NewForConfig(cfg)` -/
  newForConfig : Error
  /-- the error of `Pods("kube-system").Create` -/
  podsCreate : Pod → Error
  /-- `waitForMount(target, timeout)`, defined elsewhere in the package -/
  waitForMount : String → Nat → Error
  /-- `fuseMount(target, command, args)`, defined elsewhere in the package -/
  fuseMount : String → String → List String → Error

/-- What the functions change: files, the process environment, the package
variable `clientset` (set or `nil`), and the calls made so far. -/
structure World where
  fs : String → Option File
  environ : String → String
  clientset : Bool
  trace : List Event

/-- Record a call. -/
def World.emit (w : World) (e : Event) : World :=
  { w with trace := w.trace ++ [e] }

/-- The calls `Stat`, `Remove`, `ReadFile`, `WriteFile` and `Chtimes`. -/
def Event.isFs : Event → Bool
  | .stat _ | .remove _ | .readFile _ | .writeFile _ _ _ | .chtimes _ _ _ => true
  | _ => false

/-- The bus calls that change a unit: `StopUnit`, `ResetFailedUnit`,
`StartTransientUnit`. -/
def Event.isUnitChange : Event → Bool
  | .stopUnit _ _ | .resetFailedUnit _ | .startTransientUnit _ _ _ => true
  | _ => false

/-- The calls to the readiness waiter. -/
def Event.isWait : Event → Bool
  | .waitForMount _ _ => true
  | _ => false

/-- The calls a run added to the trace of the world it started from. -/
def newEvents (w : World) (r : Error × World) : List Event :=
  r.2.trace.drop w.trace.length

/-- `time.Second`, in nanoseconds. -/
def Second : Nat := 1000000000

/-! ## File-system calls -/

/-- `os.Stat(path)`. -/
def osStat (h : Host) (path : String) (w : World) : Except OsError FileInfo × World :=
  let w := w.emit (.stat path)
  match h.fsFault (.stat path) with
  | some e => (.error { msg := e, notExist := false }, w)
  | none =>
    match w.fs path with
    | none => (.error { msg := "stat " ++ path ++ ": no such file or directory",
                        notExist := true }, w)
    | some f => (.ok { size := f.data.length, modTime := f.modTime }, w)

/-- `os.Remove(path)`. -/
def osRemove (h : Host) (path : String) (w : World) : Error × World :=
  let w := w.emit (.remove path)
  match h.fsFault (.remove path) with
  | some e => (some e, w)
  | none =>
    match w.fs path with
    | none => (some ("remove " ++ path ++ ": no such file or directory"), w)
    | some _ => (none, { w with fs := fun p => if p = path then none else w.fs p })

/-- `os.ReadFile(path)`. -/
def osReadFile (h : Host) (path : String) (w : World) : Except String (List Nat) × World :=
  let w := w.emit (.readFile path)
  match h.fsFault (.readFile path) with
  | some e => (.error e, w)
  | none =>
    match w.fs path with
    | none => (.error ("open " ++ path ++ ": no such file or directory"), w)
    | some f => (.ok f.data, w)

/-- `os.WriteFile(path, data, perm)`: create or truncate, then write. -/
def osWriteFile (h : Host) (path : String) (data : List Nat) (perm : Nat) (w : World) :
    Error × World :=
  let w := w.emit (.writeFile path data perm)
  match h.fsFault (.writeFile path) with
  | some e => (some e, w)
  | none =>
    let f : File :=
      match w.fs path with
      | none => { data := data, modTime := h.now, accTime := h.now }
      | some old => { data := data, modTime := h.now, accTime := old.accTime }
    (none, { w with fs := fun p => if p = path then some f else w.fs p })

/-- The zero `time.Time` (1 January of year 1, UTC), in nanoseconds from the
Unix epoch. -/
def zeroTime : Int := -62135596800000000000

/-- `Time.UnixNano()`: the nanoseconds from the Unix epoch as an `int64`,
wrapping around outside its range (the years 1678 to 2262). -/
def unixNano (t : Int) : Int :=
  (t + 9223372036854775808) % 18446744073709551616 - 9223372036854775808

/-- The timestamp a file has after `os.Chtimes` was asked for the time `t`:
a zero time leaves the old one, any other time is written as
`NsecToTimespec(t.UnixNano())`. -/
def stampTime (old t : Int) : Int :=
  if t = zeroTime then old else unixNano t

/-- `os.Chtimes(path, atime, mtime)`. -/
def osChtimes (h : Host) (path : String) (atime mtime : Int) (w : World) : Error × World :=
  let w := w.emit (.chtimes path atime mtime)
  match h.fsFault (.chtimes path) with
  | some e => (some e, w)
  | none =>
    match w.fs path with
    | none => (some ("chtimes " ++ path ++ ": no such file or directory"), w)
    | some f =>
      let stamped : File :=
        { data := f.data, modTime := stampTime f.modTime mtime,
          accTime := stampTime f.accTime atime }
      (none, { w with fs := fun p => if p = path then some stamped else w.fs p })

/-! ## `CopyBinary` -/

/-- Lines 64-75 of `CopyBinary`: read the source, write the destination,
stamp it with the source's modification time. -/
def copyAndStamp (h : Host) (src dst : String) (st : FileInfo) (w : World) : Error × World :=
  match osReadFile h src w with
  | (.error err, w) => (some ("Error copying " ++ src ++ " to " ++ dst ++ ": " ++ err), w)
  | (.ok bin, w) =>
    match osWriteFile h dst bin 0o755 w with
    | (some err, w) => (some ("Error copying " ++ src ++ " to " ++ dst ++ ": " ++ err), w)
    | (none, w) =>
      match osChtimes h dst st.modTime st.modTime w with
      | (some err, w) => (some ("Error copying " ++ src ++ " to " ++ dst ++ ": " ++ err), w)
      | (none, w) => (none, w)

/-- `geesefsMounter.CopyBinary(from, to)`. -/
def CopyBinary (h : Host) (src dst : String) (w : World) : Error × World :=
  match osStat h src w with
  | (.error err, w) => (some ("Failed to stat " ++ src ++ ": " ++ err.msg), w)
  | (.ok st, w) =>
    match osStat h dst w with
    | (.error err, w) =>
      if !err.notExist then
        (some ("Failed to stat " ++ dst ++ ": " ++ err.msg), w)
      else
        -- `err != nil`: the destination is not removed
        copyAndStamp h src dst st w
    | (.ok st2, w) =>
      if st2.size ≠ st.size ∨ st2.modTime ≠ st.modTime then
        -- remove the file first to not hit "text file busy" errors
        match osRemove h dst w with
        | (some err, w) => (some ("Error removing " ++ dst ++ " to update it: " ++ err), w)
        | (none, w) => copyAndStamp h src dst st w
      else
        (none, w)

/-! ## `Mount` and the three paths -/

/-- The loop of `Mount` over `MountOptions`: the mode and the arguments so far. -/
def mountLoop : List String → Nat → List String → Nat × List String
  | [], mode, args => (mode, args)
  | o :: rest, mode, args =>
    if o = "--use-systemd" then mountLoop rest 1 args
    else if o = "--use-exec" then mountLoop rest 0 args
    else mountLoop rest mode (args ++ [o])

/-- The arguments of `Mount` before the loop: the region flag, when there is
a region, and the flags that drop root. -/
def mountHead (g : geesefsMounter) : List String :=
  (if g.region ≠ "" then ["--region", g.region] else []) ++
    ["--setuid", "65534", "--setgid", "65534"]

/-- The variable `fullPath` of `Mount`. -/
def fullPath (g : geesefsMounter) : String :=
  g.meta.BucketName ++ ":" ++ g.meta.Prefix

/-- The variable `mode` of `Mount` after the loop. -/
def mountMode (g : geesefsMounter) : Nat :=
  (mountLoop g.meta.MountOptions 2 (mountHead g)).1

/-- The variable `args` of `Mount` at the dispatch. -/
def mountArgs (g : geesefsMounter) (target : String) : List String :=
  (mountLoop g.meta.MountOptions 2 (mountHead g)).2 ++ [fullPath g, target]

/-- Lines 112-123 of `MountPod`: build the cluster client on first use. -/
def initClientset (h : Host) (w : World) : Error × World :=
  if w.clientset then (none, w)
  else
    let w := w.emit .inClusterConfig
    match h.inClusterConfig with
    | some err => (some err, w)
    | none =>
      let w := w.emit .newForConfig
      match h.newForConfig with
      | some err => (some err, w)
      | none => (none, { w with clientset := true })

/-- The `Args` of the container of `MountPod`. -/
def podArgs (g : geesefsMounter) (args : List String) : List String :=
  ["--endpoint", g.endpoint, "-o", "allow_other", "--log-file", "/dev/stderr", "-f"] ++ args

/-- The variable `podName` of `MountPod`. -/
def podName (volumeID : String) (environ : String → String) : String :=
  "csi-s3-mount-" ++ volumeID ++ "-" ++ environ "MY_NODE_NAME"

/-- The pod that `MountPod` asks the cluster to create. -/
def mountPodSpec (h : Host) (g : geesefsMounter) (target volumeID : String)
    (args : List String) (environ : String → String) : Pod :=
  { Kind := "Pod",
    APIVersion := "v1",
    Namespace := "kube-system",
    Name := podName volumeID environ,
    Containers := [
      { Name := "mounter",
        Image := environ "MY_CONTAINER_IMAGE",
        Command := ["/usr/bin/geesefs"],
        Args := podArgs g args,
        Env := [
          { Name := "AWS_ACCESS_KEY_ID", Value := g.accessKeyID },
          { Name := "AWS_SECRET_ACCESS_KEY", Value := g.secretAccessKey }],
        VolumeMounts := [
          { Name := "stage-dir", MountPath := h.filepathDir target,
            MountPropagation := some "Bidirectional" },
          { Name := "fuse-device", MountPath := "/dev/fuse", MountPropagation := none }],
        SecurityContext := some { Privileged := some true, CapabilitiesAdd := ["SYS_ADMIN"] } }],
    RestartPolicy := "Never",
    Volumes := [
      { Name := "stage-dir", HostPath := h.filepathDir target,
        HostPathType := some "DirectoryOrCreate" },
      { Name := "fuse-device", HostPath := "/dev/fuse", HostPathType := none }],
    NodeName := environ "MY_NODE_NAME" }

/-- `geesefsMounter.MountPod(ctx, target, volumeID, args)`. -/
def MountPod (h : Host) (g : geesefsMounter) (target volumeID : String)
    (args : List String) (w : World) : Error × World :=
  match initClientset h w with
  | (some err, w) => (some err, w)
  | (none, w) =>
    let pod := mountPodSpec h g target volumeID args w.environ
    -- the result of `Delete` is dropped
    let w := w.emit (.podsDelete "kube-system" (podName volumeID w.environ))
    let w := w.emit (.podsCreate "kube-system" pod)
    match h.podsCreate pod with
    | some err => (some err, w)
    | none =>
      let w := w.emit (.waitForMount target (20 * Second))
      (h.waitForMount target (20 * Second), w)

/-- `geesefsMounter.MountDirect(target, args)`. -/
def MountDirect (h : Host) (g : geesefsMounter) (target : String)
    (args : List String) (w : World) : Error × World :=
  let args := ["--endpoint", g.endpoint, "-o", "allow_other",
               "--log-file", "/dev/stderr"] ++ args
  let w := w.emit (.setenv "AWS_ACCESS_KEY_ID" g.accessKeyID)
  let w := { w with environ := fun k =>
    if k = "AWS_ACCESS_KEY_ID" then g.accessKeyID else w.environ k }
  let w := w.emit (.setenv "AWS_SECRET_ACCESS_KEY" g.secretAccessKey)
  let w := { w with environ := fun k =>
    if k = "AWS_SECRET_ACCESS_KEY" then g.secretAccessKey else w.environ k }
  let w := w.emit (.fuseMount target "geesefs" args)
  (h.fuseMount target "geesefs" args, w)

/-- The variable `pluginDir` of `MountSystemd`. -/
def pluginDir (environ : String → String) : String :=
  if environ "PLUGIN_DIR" = "" then "/var/lib/kubelet/plugins/ru.yandex.s3.csi"
  else environ "PLUGIN_DIR"

/-- Line 227 of `MountSystemd`: the command of the unit. -/
def systemdArgs (g : geesefsMounter) (environ : String → String) (args : List String) :
    List String :=
  [pluginDir environ ++ "/geesefs", "-f", "-o", "allow_other", "--endpoint", g.endpoint] ++ args

/-- The variable `unitName` of `MountSystemd`. -/
def unitName (h : Host) (volumeID : String) : String :=
  "geesefs-" ++ h.pathBusEscape volumeID ++ ".service"

/-- The variable `newProps` of `MountSystemd`. -/
def newProps (g : geesefsMounter) (volumeID : String) (args : List String) : List Property :=
  [ { Name := "Description",
      Value := .str ("GeeseFS mount for Kubernetes volume " ++ volumeID) },
    PropExecStart args false,
    { Name := "Environment",
      Value := .strs ["AWS_ACCESS_KEY_ID=" ++ g.accessKeyID,
                      "AWS_SECRET_ACCESS_KEY=" ++ g.secretAccessKey] },
    { Name := "CollectMode", Value := .str "inactive-or-failed" } ]

/-- The test of line 247 on the string found under `ActiveState`. -/
def isActive (s : String) : Bool :=
  s = "active" || s = "activating" || s = "reloading"

/-- Lines 249-256 of `MountSystemd`: the variable `curPath`, read from the
`ExecStart` property of the unit. -/
def curPath (unitProps : UnitProps) : String :=
  match unitProps "ExecStart" with
  | some (.recs prevExec) =>
    match prevExec with
    | [] => ""
    | rec0 :: _ =>
      if rec0.length ≥ 2 then
        match rec0.get? 1 with
        | some (.strs execArgs) =>
          if execArgs.length ≥ 2 then execArgs.getLastD "" else ""
        | _ => ""
      else ""
  | _ => ""

/-- The error of line 258. -/
def conflictError (volumeID target cur : String) : String :=
  "GeeseFS for volume " ++ volumeID ++ " is already mounted on host, but" ++
  " in a different directory. We want " ++ target ++ ", but it\x27s in " ++ cur

/-- Lines 272-276 of `MountSystemd`: start the unit and wait for the mount. -/
def startAndWait (h : Host) (g : geesefsMounter) (target volumeID : String)
    (args : List String) (w : World) : Error × World :=
  let props := newProps g volumeID args
  let w := w.emit (.startTransientUnit (unitName h volumeID) "replace" props)
  match h.startTransientUnit (unitName h volumeID) props with
  | some err =>
    (some ("Error starting systemd unit " ++ unitName h volumeID ++ " on host: " ++ err), w)
  | none =>
    let w := w.emit (.waitForMount target (10 * Second))
    (h.waitForMount target (10 * Second), w)

/-- Lines 220-276 of `MountSystemd`: what runs between the connection and
its deferred `Close`. -/
def mountSystemdBody (h : Host) (g : geesefsMounter) (target volumeID : String)
    (args : List String) (w : World) : Error × World :=
  match CopyBinary h "/usr/bin/geesefs" "/csi/geesefs" w with
  | (some err, w) => (some err, w)
  | (none, w) =>
    let args := systemdArgs g w.environ args
    let w := w.emit (.getAllProperties (unitName h volumeID))
    match h.getAllProperties (unitName h volumeID) with
    | .ok unitProps =>
      -- Unit already exists
      match unitProps "ActiveState" with
      | some (.str s) =>
        if isActive s then
          -- Unit is already active
          if curPath unitProps ≠ target then
            (some (conflictError volumeID target (curPath unitProps)), w)
          else
            -- Already mounted at right location
            (none, w)
        else
          let w := w.emit (.stopUnit (unitName h volumeID) "replace")
          let w := w.emit (.resetFailedUnit (unitName h volumeID))
          startAndWait h g target volumeID args w
      | _ =>
        let w := w.emit (.stopUnit (unitName h volumeID) "replace")
        let w := w.emit (.resetFailedUnit (unitName h volumeID))
        startAndWait h g target volumeID args w
    | .error _ => startAndWait h g target volumeID args w

/-- `geesefsMounter.MountSystemd(target, volumeID, args)`. -/
def MountSystemd (h : Host) (g : geesefsMounter) (target volumeID : String)
    (args : List String) (w : World) : Error × World :=
  let w := w.emit .systemdNew
  match h.systemdNew with
  | some err => (some err, w)
  | none =>
    let r := mountSystemdBody h g target volumeID args w
    -- defer conn.Close()
    (r.1, r.2.emit .connClose)

/-- The call `Mount` ends with. -/
inductive Call
  | MountSystemd (target volumeID : String) (args : List String)
  | MountPod (target volumeID : String) (args : List String)
  | MountDirect (target : String) (args : List String)
  deriving DecidableEq, Repr

/-- Lines 81-108 of `Mount`: the path chosen and what is handed to it. -/
def mountCall (g : geesefsMounter) (target volumeID : String) : Call :=
  if mountMode g = 1 then .MountSystemd target volumeID (mountArgs g target)
  else if mountMode g = 2 then .MountPod target volumeID (mountArgs g target)
  else .MountDirect target (mountArgs g target)

/-- Make the call. -/
def Call.run (h : Host) (g : geesefsMounter) : Call → World → Error × World
  | .MountSystemd target volumeID args => Mounter.MountSystemd h g target volumeID args
  | .MountPod target volumeID args => Mounter.MountPod h g target volumeID args
  | .MountDirect target args => Mounter.MountDirect h g target args

/-- `geesefsMounter.Mount(ctx, target, volumeID)`. -/
def Mount (h : Host) (g : geesefsMounter) (target volumeID : String) (w : World) :
    Error × World :=
  (mountCall g target volumeID).run h g w

/-! ## Definitions used by the statements -/

/-- The two control tokens. -/
def isControl (o : String) : Bool :=
  o = "--use-systemd" || o = "--use-exec"

/-- The mode the loop ends with, read off the control tokens of the list. -/
def modeOf (start : Nat) (opts : List String) : Nat :=
  match (opts.filter isControl).getLast? with
  | none => start
  | some o => if o = "--use-systemd" then 1 else 0

/-- The arguments a call carries. -/
def Call.args : Call → List String
  | .MountSystemd _ _ args => args
  | .MountPod _ _ args => args
  | .MountDirect _ args => args

/-- The options `Mount` passes through: all but the control tokens. -/
def passThrough (g : geesefsMounter) : List String :=
  g.meta.MountOptions.filter (fun o => !isControl o)

/-- A mounter with an endpoint, no region, and the given bucket, prefix and options. -/
def exampleMounter (bucket pfx : String) (opts : List String) : geesefsMounter :=
  { meta := { BucketName := bucket, Prefix := pfx, MountOptions := opts },
    endpoint := "https://s3.example", region := "",
    accessKeyID := "key", secretAccessKey := "secret" }

/-- The UTF-8 bytes of a character. -/
def utf8Bytes (c : Char) : List Nat :=
  if c.toNat < 128 then [c.toNat]
  else if c.toNat < 2048 then [192 + c.toNat / 64, 128 + c.toNat % 64]
  else if c.toNat < 65536 then
    [224 + c.toNat / 4096, 128 + c.toNat / 64 % 64, 128 + c.toNat % 64]
  else
    [240 + c.toNat / 262144, 128 + c.toNat / 4096 % 64, 128 + c.toNat / 64 % 64,
     128 + c.toNat % 64]

/-- A hexadecimal digit, in lower case. -/
def hexDigit (n : Nat) : Char :=
  if n < 10 then Char.ofNat (48 + n) else Char.ofNat (87 + n)

/-- A byte as `%x` prints it. -/
def hexByte (b : Nat) : List Char :=
  if b < 16 then [hexDigit b] else [hexDigit (b / 16), hexDigit (b % 16)]

/-- The test `needsEscape` of go-systemd: every byte but a letter or a digit,
and a digit in the first place. -/
def needsEscape (i b : Nat) : Bool :=
  !(decide (97 ≤ b ∧ b ≤ 122) || decide (65 ≤ b ∧ b ≤ 90) || decide (48 ≤ b ∧ b ≤ 57))
    || (decide (i = 0) && decide (48 ≤ b ∧ b ≤ 57))

/-- The loop of `PathBusEscape` from the byte at index `i` on. -/
def escapeBytes : Nat → List Nat → List Char
  | _, [] => []
  | i, b :: bs =>
    (if needsEscape i b then '_' :: hexByte b else [Char.ofNat b]) ++ escapeBytes (i + 1) bs

/-- The library function `systemd.PathBusEscape`, as go-systemd defines it:
`_` for the empty string, else every byte that needs it replaced by `_` and
its hexadecimal value. -/
def busEscape (path : String) : String :=
  if path = "" then "_" else String.mk (escapeBytes 0 (path.data.map utf8Bytes).flatten)

/-- A host on which every call succeeds and no unit is known to the bus. -/
def exampleHost : Host :=
  { fsFault := fun _ => none,
    now := 100,
    pathBusEscape := busEscape,
    filepathDir := fun _ => "/mnt",
    systemdNew := none,
    getAllProperties := fun _ => .error "unit not found",
    startTransientUnit := fun _ _ => none,
    inClusterConfig := none,
    newForConfig := none,
    podsCreate := fun _ => none,
    waitForMount := fun _ _ => none,
    fuseMount := fun _ _ _ => none }

/-- A world with the packaged binary and nothing at the host path. -/
def exampleWorld : World :=
  { fs := fun p =>
      if p = "/usr/bin/geesefs" then some { data := [1, 2, 3], modTime := 5, accTime := 7 }
      else none,
    environ := fun _ => "",
    clientset := false,
    trace := [] }

/-- The world `w2` comes from `w1` by file-system calls only: the trace grew by
such calls, the environment and the cluster client are untouched. -/
def FsOnly (w1 w2 : World) : Prop :=
  ∃ evs, w2.trace = w1.trace ++ evs ∧ (∀ e ∈ evs, e.isFs = true) ∧
    w2.environ = w1.environ ∧ w2.clientset = w1.clientset

/-- What `startAndWait` returns and the calls it makes, for the unit command `cmd`. -/
def startOutcome (h : Host) (g : geesefsMounter) (target volumeID : String)
    (cmd : List String) : Error × List Event :=
  match h.startTransientUnit (unitName h volumeID) (newProps g volumeID cmd) with
  | some err =>
    (some ("Error starting systemd unit " ++ unitName h volumeID ++ " on host: " ++ err),
      [.startTransientUnit (unitName h volumeID) "replace" (newProps g volumeID cmd)])
  | none =>
    (h.waitForMount target (10 * Second),
      [.startTransientUnit (unitName h volumeID) "replace" (newProps g volumeID cmd),
       .waitForMount target (10 * Second)])

/-- What `MountSystemd` returns and the bus calls it makes once `CopyBinary`
has succeeded (lines 223-276), for the unit command `cmd`. -/
def busOutcome (h : Host) (g : geesefsMounter) (target volumeID : String)
    (cmd : List String) : Error × List Event :=
  match h.getAllProperties (unitName h volumeID) with
  | .error _ =>
    ((startOutcome h g target volumeID cmd).1,
      .getAllProperties (unitName h volumeID) :: (startOutcome h g target volumeID cmd).2)
  | .ok unitProps =>
    match unitProps "ActiveState" with
    | some (.str s) =>
      if isActive s then
        (if curPath unitProps ≠ target then
            some (conflictError volumeID target (curPath unitProps))
          else none,
          [.getAllProperties (unitName h volumeID)])
      else
        ((startOutcome h g target volumeID cmd).1,
          [.getAllProperties (unitName h volumeID), .stopUnit (unitName h volumeID) "replace",
           .resetFailedUnit (unitName h volumeID)] ++ (startOutcome h g target volumeID cmd).2)
    | _ =>
      ((startOutcome h g target volumeID cmd).1,
        [.getAllProperties (unitName h volumeID), .stopUnit (unitName h volumeID) "replace",
         .resetFailedUnit (unitName h volumeID)] ++ (startOutcome h g target volumeID cmd).2)

/-- The example world with the file `f` at the host path of the binary. -/
def worldWithHostBinary (f : File) : World :=
  { exampleWorld with
    fs := fun p => if p = "/csi/geesefs" then some f else exampleWorld.fs p }

/-- The example host, on which the stat of the host binary is refused. -/
def statFaultHost : Host :=
  { exampleHost with
    fsFault := fun op =>
      if op = .stat "/csi/geesefs" then some "stat /csi/geesefs: permission denied" else none }

/-- A world without any file: the packaged binary is missing. -/
def bareWorld : World :=
  { exampleWorld with fs := fun _ => none }

/-- The host `h` with a bus that cannot be reached. -/
def withoutBus (h : Host) : Host :=
  { h with
    systemdNew := some
      "dial unix /var/run/dbus/system_bus_socket: connect: no such file or directory" }

/-- A world whose packaged binary carries a modification time after the
year 2262. -/
def farFutureWorld : World :=
  { exampleWorld with
    fs := fun p =>
      if p = "/usr/bin/geesefs" then
        some { data := [1, 2, 3], modTime := 10413792000000000005, accTime := 7 }
      else none }

/-- The example host with every unit reported `active`, its `ExecStart`
property being `execStart`. -/
def activeHost (execStart : Option PropValue) : Host :=
  { exampleHost with
    getAllProperties := fun _ => .ok (fun k =>
      if k = "ActiveState" then some (.str "active")
      else if k = "ExecStart" then execStart
      else none) }

/-- The example host with a waiter that always times out. -/
def timeoutHost : Host :=
  { exampleHost with
    waitForMount := fun target _ => some ("Timeout waiting for mount " ++ target) }

/-- The shapes of `ExecStart` that C9 lists: missing, not a list of records,
an empty list, a first record of fewer than two fields, a second field that is
not a string list, a string list of fewer than two elements. -/
def unreadableExecStart (unitProps : UnitProps) : Bool :=
  match unitProps "ExecStart" with
  | none => true
  | some (.recs []) => true
  | some (.recs ([] :: _)) => true
  | some (.recs ([_] :: _)) => true
  | some (.recs ((_ :: .strs l :: _) :: _)) => decide (l.length < 2)
  | some (.recs ((_ :: _ :: _) :: _)) => true
  | some _ => true

/-- The `ExecStart` property read back for a unit started with the command
`cmd`: one record of the path, the argument list and further fields. -/
def recordedExecStart (cmd : List String) : PropValue :=
  .recs [[.str (cmd.headD ""), .strs cmd, .bool false]]

/-! ## The loop of `Mount` -/

/-- The loop keeps, in order, the options that are not control tokens. -/
theorem mountLoop_snd (opts : List String) (mode : Nat) (args : List String) :
    (mountLoop opts mode args).2 = args ++ opts.filter (fun o => !isControl o) := by
  induction opts generalizing mode args with
  | nil => simp [mountLoop]
  | cons o rest ih =>
    unfold mountLoop
    by_cases h1 : o = "--use-systemd"
    · simp [h1, ih, isControl]
    · by_cases h2 : o = "--use-exec"
      · simp [h2, ih, isControl]
      · simp [h1, h2, ih, isControl]

theorem modeOf_cons (start : Nat) (o : String) (rest : List String) :
    modeOf start (o :: rest) =
      if o = "--use-systemd" then modeOf 1 rest
      else if o = "--use-exec" then modeOf 0 rest
      else modeOf start rest := by
  unfold modeOf
  by_cases h1 : o = "--use-systemd"
  · subst h1
    have hc : isControl "--use-systemd" = true := by decide
    rw [List.filter_cons_of_pos hc, List.getLast?_cons]
    cases (List.filter isControl rest).getLast? <;> simp
  · by_cases h2 : o = "--use-exec"
    · subst h2
      have hc : isControl "--use-exec" = true := by decide
      rw [List.filter_cons_of_pos hc, List.getLast?_cons]
      cases (List.filter isControl rest).getLast? <;> simp
    · have hc : ¬ isControl o = true := by simp [isControl, h1, h2]
      rw [List.filter_cons_of_neg hc]
      simp [h1, h2]

theorem mountLoop_fst (opts : List String) (mode : Nat) (args : List String) :
    (mountLoop opts mode args).1 = modeOf mode opts := by
  induction opts generalizing mode args with
  | nil => simp [mountLoop, modeOf]
  | cons o rest ih =>
    rw [modeOf_cons]
    unfold mountLoop
    by_cases h1 : o = "--use-systemd"
    · simp [h1, ih]
    · by_cases h2 : o = "--use-exec"
      · simp [h2, ih]
      · simp [h1, h2, ih]

theorem mountMode_eq (g : geesefsMounter) :
    mountMode g = modeOf 2 g.meta.MountOptions := by
  simp [mountMode, mountLoop_fst]

theorem mountArgs_eq (g : geesefsMounter) (target : String) :
    mountArgs g target = mountHead g ++ passThrough g ++ [fullPath g, target] := by
  simp [mountArgs, mountLoop_snd, passThrough]

theorem mem_filter_isControl {opts : List String} {x : String}
    (hx : (opts.filter isControl).getLast? = some x) :
    x ∈ opts ∧ (x = "--use-systemd" ∨ x = "--use-exec") := by
  obtain ⟨ys, hys⟩ := List.getLast?_eq_some_iff.mp hx
  have hm : x ∈ opts.filter isControl := by rw [hys]; simp
  have := List.mem_filter.mp hm
  simpa [isControl] using this

/-- When `--use-systemd` occurs with no `--use-exec` after it, the mode is 1. -/
theorem modeOf_systemd_last (start : Nat) (pre post : List String)
    (hpost : "--use-exec" ∉ post) :
    modeOf start (pre ++ "--use-systemd" :: post) = 1 := by
  unfold modeOf
  have hc : isControl "--use-systemd" = true := by decide
  rw [List.filter_append, List.filter_cons_of_pos hc, List.getLast?_append_cons,
    List.getLast?_cons]
  cases hl : (List.filter isControl post).getLast? with
  | none => simp
  | some x =>
    obtain ⟨hxm, hx⟩ := mem_filter_isControl hl
    rcases hx with hx | hx
    · simp [hx]
    · exact absurd (hx ▸ hxm) hpost

/-- With `--use-exec` in the list and no `--use-systemd`, the mode is 0. -/
theorem modeOf_exec_only (start : Nat) (opts : List String)
    (hexec : "--use-exec" ∈ opts) (hsys : "--use-systemd" ∉ opts) :
    modeOf start opts = 0 := by
  unfold modeOf
  cases hl : (List.filter isControl opts).getLast? with
  | none =>
    have hnil := List.getLast?_eq_none_iff.mp hl
    have hm : "--use-exec" ∈ List.filter isControl opts :=
      List.mem_filter.mpr ⟨hexec, by decide⟩
    rw [hnil] at hm
    simp at hm
  | some x =>
    obtain ⟨hxm, hx⟩ := mem_filter_isControl hl
    rcases hx with hx | hx
    · exact absurd (hx ▸ hxm) hsys
    · simp [hx]

/-- Without a control token the mode stays what it was. -/
theorem modeOf_none (start : Nat) (opts : List String)
    (hsys : "--use-systemd" ∉ opts) (hexec : "--use-exec" ∉ opts) :
    modeOf start opts = start := by
  unfold modeOf
  have hnil : List.filter isControl opts = [] := by
    rw [List.filter_eq_nil_iff]
    intro a ha hc
    simp only [isControl, Bool.or_eq_true, decide_eq_true_eq] at hc
    rcases hc with hc | hc
    · exact hsys (hc ▸ ha)
    · exact hexec (hc ▸ ha)
  simp [hnil]

theorem fullPath_not_control (g : geesefsMounter) :
    fullPath g ≠ "--use-systemd" ∧ fullPath g ≠ "--use-exec" := by
  have h2 : ':' ∈ (fullPath g).data := by simp [fullPath, String.data_append]
  constructor
  · intro h
    rw [h] at h2
    revert h2
    decide
  · intro h
    rw [h] at h2
    revert h2
    decide

theorem not_mem_passThrough (g : geesefsMounter) :
    "--use-systemd" ∉ passThrough g ∧ "--use-exec" ∉ passThrough g := by
  constructor <;>
  · intro h
    have := (List.mem_filter.mp h).2
    simp [isControl] at this

theorem not_mem_mountHead (g : geesefsMounter) (tok : String)
    (h1 : tok ≠ "--region") (h2 : tok ≠ g.region) (h3 : tok ≠ "--setuid")
    (h4 : tok ≠ "65534") (h5 : tok ≠ "--setgid") : tok ∉ mountHead g := by
  unfold mountHead
  split <;> simp [h1, h2, h3, h4, h5]

/-! ## The Strategy Selector (C1, C2, C3, C4, C10) -/

/-- C1, counterexample: the list `--use-systemd, --use-exec` contains the
use-systemd token and `Mount` ends with `MountDirect`; and with the target
`--use-systemd` the vector handed to `MountSystemd` contains that string. -/
theorem C1_counterexample :
    ("--use-systemd" ∈ (exampleMounter "mybucket" "data"
        ["--use-systemd", "--use-exec"]).meta.MountOptions ∧
      mountCall (exampleMounter "mybucket" "data" ["--use-systemd", "--use-exec"])
          "/mnt/x" "vol-1" =
        .MountDirect "/mnt/x"
          ["--setuid", "65534", "--setgid", "65534", "mybucket:data", "/mnt/x"]) ∧
    (mountCall (exampleMounter "mybucket" "data" ["--use-systemd"])
          "--use-systemd" "vol-1" =
        .MountSystemd "--use-systemd" "vol-1"
          ["--setuid", "65534", "--setgid", "65534", "mybucket:data", "--use-systemd"]) := by
  decide

/-- C1, amended: when `--use-systemd` occurs in the option list and no
`--use-exec` occurs after it, `Mount` ends with `MountSystemd` (and its result
is that call's), the options passed through never contain `--use-systemd`, and
the whole forwarded vector contains no `--use-systemd` provided neither the
region nor the target is that string. -/
theorem C1_systemd_when_last (g : geesefsMounter) (target volumeID : String)
    (pre post : List String)
    (hopts : g.meta.MountOptions = pre ++ "--use-systemd" :: post)
    (hpost : "--use-exec" ∉ post) :
    mountCall g target volumeID = .MountSystemd target volumeID (mountArgs g target) ∧
    (∀ (h : Host) (w : World),
      Mount h g target volumeID w = MountSystemd h g target volumeID (mountArgs g target) w) ∧
    "--use-systemd" ∉ passThrough g ∧
    (g.region ≠ "--use-systemd" → target ≠ "--use-systemd" →
      "--use-systemd" ∉ mountArgs g target) := by
  have hmode : mountMode g = 1 := by
    rw [mountMode_eq, hopts]
    exact modeOf_systemd_last 2 pre post hpost
  have hcall : mountCall g target volumeID =
      .MountSystemd target volumeID (mountArgs g target) := by
    simp [mountCall, hmode]
  refine ⟨hcall, ?_, (not_mem_passThrough g).1, ?_⟩
  · intro h w
    simp [Mount, hcall, Call.run]
  · intro hr ht
    rw [mountArgs_eq]
    have hhead : "--use-systemd" ∉ mountHead g :=
      not_mem_mountHead g _ (by decide) (fun e => hr e.symm) (by decide) (by decide)
        (by decide)
    have hfull := (fullPath_not_control g).1
    simp only [List.mem_append, List.mem_cons, List.mem_singleton, List.not_mem_nil,
      or_false, not_or]
    exact ⟨⟨hhead, (not_mem_passThrough g).1⟩, fun e => hfull e.symm, fun e => ht e.symm⟩

theorem C1_systemd_when_last_witness :
    (exampleMounter "mybucket" "data"
        ["--use-exec", "-o", "ro", "--use-systemd", "--debug"]).meta.MountOptions =
      ["--use-exec", "-o", "ro"] ++ "--use-systemd" :: ["--debug"] ∧
    "--use-exec" ∉ ["--debug"] ∧
    mountCall (exampleMounter "mybucket" "data"
        ["--use-exec", "-o", "ro", "--use-systemd", "--debug"]) "/mnt/x" "vol-1" =
      .MountSystemd "/mnt/x" "vol-1"
        (mountArgs (exampleMounter "mybucket" "data"
          ["--use-exec", "-o", "ro", "--use-systemd", "--debug"]) "/mnt/x") :=
  ⟨rfl, by decide,
    (C1_systemd_when_last
      (exampleMounter "mybucket" "data" ["--use-exec", "-o", "ro", "--use-systemd", "--debug"])
      "/mnt/x" "vol-1" ["--use-exec", "-o", "ro"] ["--debug"] rfl (by decide)).1⟩

/-- C2: when the option list contains `--use-exec` and no `--use-systemd`,
`Mount` ends with `MountDirect` on the forwarded vector, its result is that
call's, and the call is neither `MountSystemd` nor `MountPod`. -/
theorem C2_exec_selects_direct (g : geesefsMounter) (target volumeID : String)
    (hexec : "--use-exec" ∈ g.meta.MountOptions)
    (hsys : "--use-systemd" ∉ g.meta.MountOptions) :
    mountCall g target volumeID = .MountDirect target (mountArgs g target) ∧
    (∀ (h : Host) (w : World),
      Mount h g target volumeID w = MountDirect h g target (mountArgs g target) w) ∧
    (∀ t v a, mountCall g target volumeID ≠ .MountSystemd t v a) ∧
    (∀ t v a, mountCall g target volumeID ≠ .MountPod t v a) := by
  have hmode : mountMode g = 0 := by
    rw [mountMode_eq]
    exact modeOf_exec_only 2 _ hexec hsys
  have hcall : mountCall g target volumeID = .MountDirect target (mountArgs g target) := by
    simp [mountCall, hmode]
  refine ⟨hcall, ?_, ?_, ?_⟩
  · intro h w
    simp [Mount, hcall, Call.run]
  · intro t v a
    simp [hcall]
  · intro t v a
    simp [hcall]

theorem C2_exec_selects_direct_witness :
    "--use-exec" ∈ (exampleMounter "mybucket" "data" ["-o", "ro", "--use-exec"]).meta.MountOptions ∧
    "--use-systemd" ∉
      (exampleMounter "mybucket" "data" ["-o", "ro", "--use-exec"]).meta.MountOptions ∧
    mountCall (exampleMounter "mybucket" "data" ["-o", "ro", "--use-exec"]) "/mnt/x" "vol-1" =
      .MountDirect "/mnt/x"
        (mountArgs (exampleMounter "mybucket" "data" ["-o", "ro", "--use-exec"]) "/mnt/x") :=
  ⟨by decide, by decide,
    (C2_exec_selects_direct (exampleMounter "mybucket" "data" ["-o", "ro", "--use-exec"])
      "/mnt/x" "vol-1" (by decide) (by decide)).1⟩

/-- C3: when the option list (the empty list included) contains neither
control token, `Mount` ends with `MountPod` on the forwarded vector, its
result is that call's, and the call is neither `MountSystemd` nor
`MountDirect`. -/
theorem C3_default_selects_pod (g : geesefsMounter) (target volumeID : String)
    (hsys : "--use-systemd" ∉ g.meta.MountOptions)
    (hexec : "--use-exec" ∉ g.meta.MountOptions) :
    mountCall g target volumeID = .MountPod target volumeID (mountArgs g target) ∧
    (∀ (h : Host) (w : World),
      Mount h g target volumeID w = MountPod h g target volumeID (mountArgs g target) w) ∧
    (∀ t v a, mountCall g target volumeID ≠ .MountSystemd t v a) ∧
    (∀ t a, mountCall g target volumeID ≠ .MountDirect t a) := by
  have hmode : mountMode g = 2 := by
    rw [mountMode_eq]
    exact modeOf_none 2 _ hsys hexec
  have hcall : mountCall g target volumeID =
      .MountPod target volumeID (mountArgs g target) := by
    simp [mountCall, hmode]
  refine ⟨hcall, ?_, ?_, ?_⟩
  · intro h w
    simp [Mount, hcall, Call.run]
  · intro t v a
    simp [hcall]
  · intro t a
    simp [hcall]

theorem C3_default_selects_pod_witness :
    "--use-systemd" ∉ (exampleMounter "mybucket" "data" []).meta.MountOptions ∧
    "--use-exec" ∉ (exampleMounter "mybucket" "data" []).meta.MountOptions ∧
    mountCall (exampleMounter "mybucket" "data" []) "/mnt/x" "vol-1" =
      .MountPod "/mnt/x" "vol-1" (mountArgs (exampleMounter "mybucket" "data" []) "/mnt/x") :=
  ⟨by decide, by decide,
    (C3_default_selects_pod (exampleMounter "mybucket" "data" []) "/mnt/x" "vol-1"
      (by decide) (by decide)).1⟩

theorem passThrough_eq (g : geesefsMounter) :
    passThrough g =
      g.meta.MountOptions.filter (fun o => decide (o ≠ "--use-systemd" ∧ o ≠ "--use-exec")) := by
  unfold passThrough
  congr 1
  funext o
  simp [isControl]

theorem mountCall_args (g : geesefsMounter) (target volumeID : String) :
    (mountCall g target volumeID).args = mountArgs g target := by
  unfold mountCall
  split
  · rfl
  · split <;> rfl

/-- The calls `MountPod` adds to the trace. -/
theorem MountPod_newEvents (h : Host) (g : geesefsMounter) (target volumeID : String)
    (args : List String) (w : World) :
    newEvents w (MountPod h g target volumeID args w) =
      (if w.clientset then []
       else if h.inClusterConfig.isSome then [.inClusterConfig]
       else [.inClusterConfig, .newForConfig]) ++
      (if (initClientset h w).1.isSome then []
       else
        [.podsDelete "kube-system" (podName volumeID w.environ),
         .podsCreate "kube-system" (mountPodSpec h g target volumeID args w.environ)] ++
        (if (h.podsCreate (mountPodSpec h g target volumeID args w.environ)).isSome then []
         else [.waitForMount target (20 * Second)])) := by
  unfold newEvents MountPod initClientset
  by_cases hc : w.clientset = true
  · simp only [hc, if_true]
    cases hp : h.podsCreate (mountPodSpec h g target volumeID args w.environ) <;>
      simp [World.emit, hp]
  · simp only [hc]
    cases h1 : h.inClusterConfig with
    | some e => simp [World.emit]
    | none =>
      cases h2 : h.newForConfig with
      | some e => simp [World.emit]
      | none =>
        cases hp : h.podsCreate (mountPodSpec h g target volumeID args w.environ) <;>
          simp [World.emit, hp]

/-- C4: the vector `Mount` forwards is the region flag (when the region is
not empty), the four flags that drop root, the options without the two
control tokens in their order, then `bucket:prefix` and the target; whatever
path is chosen carries that vector; its last two elements are the remote path
and the target; every pod `MountPod` asks for has one container whose args
are the seven fixed flags followed by the vector it was given, and it does
ask for that pod once the cluster client is there; and the request of the
spec's example ends in `-o ro mybucket:data /mnt/x` on the pod path. -/
theorem C4_forwarded_vector (h : Host) (g : geesefsMounter) (target volumeID : String)
    (w : World) :
    mountArgs g target =
      (if g.region ≠ "" then ["--region", g.region] else []) ++
      ["--setuid", "65534", "--setgid", "65534"] ++
      g.meta.MountOptions.filter
        (fun o => decide (o ≠ "--use-systemd" ∧ o ≠ "--use-exec")) ++
      [g.meta.BucketName ++ ":" ++ g.meta.Prefix, target] ∧
    (mountCall g target volumeID).args = mountArgs g target ∧
    (mountArgs g target).drop ((mountArgs g target).length - 2) =
      [g.meta.BucketName ++ ":" ++ g.meta.Prefix, target] ∧
    (∀ (args : List String) (ns : String) (pod : Pod),
      Event.podsCreate ns pod ∈ newEvents w (MountPod h g target volumeID args w) →
      pod.Containers.map (fun c => c.Args) =
        [["--endpoint", g.endpoint, "-o", "allow_other", "--log-file", "/dev/stderr", "-f"]
          ++ args]) ∧
    (∀ (args : List String), (initClientset h w).1 = none →
      Event.podsCreate "kube-system" (mountPodSpec h g target volumeID args w.environ) ∈
        newEvents w (MountPod h g target volumeID args w)) ∧
    (∀ (endpoint region accessKeyID secretAccessKey : String),
      mountCall
        { meta := { BucketName := "mybucket", Prefix := "data", MountOptions := ["-o", "ro"] },
          endpoint := endpoint, region := region, accessKeyID := accessKeyID,
          secretAccessKey := secretAccessKey } "/mnt/x" "vol-1" =
        .MountPod "/mnt/x" "vol-1"
          (mountArgs
            { meta := { BucketName := "mybucket", Prefix := "data",
                        MountOptions := ["-o", "ro"] },
              endpoint := endpoint, region := region, accessKeyID := accessKeyID,
              secretAccessKey := secretAccessKey } "/mnt/x") ∧
      ["-o", "ro", "mybucket:data", "/mnt/x"] <:+
        podArgs
          { meta := { BucketName := "mybucket", Prefix := "data",
                      MountOptions := ["-o", "ro"] },
            endpoint := endpoint, region := region, accessKeyID := accessKeyID,
            secretAccessKey := secretAccessKey }
          (mountArgs
            { meta := { BucketName := "mybucket", Prefix := "data",
                        MountOptions := ["-o", "ro"] },
              endpoint := endpoint, region := region, accessKeyID := accessKeyID,
              secretAccessKey := secretAccessKey } "/mnt/x")) := by
  have hargs : mountArgs g target =
      (if g.region ≠ "" then ["--region", g.region] else []) ++
      ["--setuid", "65534", "--setgid", "65534"] ++
      g.meta.MountOptions.filter
        (fun o => decide (o ≠ "--use-systemd" ∧ o ≠ "--use-exec")) ++
      [g.meta.BucketName ++ ":" ++ g.meta.Prefix, target] := by
    rw [mountArgs_eq, passThrough_eq]
    rfl
  refine ⟨hargs, mountCall_args g target volumeID, ?_, ?_, ?_, ?_⟩
  · rw [mountArgs_eq, fullPath]
    generalize mountHead g ++ passThrough g = l
    simp
  · intro args ns pod hmem
    rw [MountPod_newEvents] at hmem
    have hpod : pod = mountPodSpec h g target volumeID args w.environ := by
      rcases List.mem_append.mp hmem with hm | hm
      · split at hm
        · simp at hm
        · split at hm <;> simp at hm
      · split at hm
        · simp at hm
        · rcases List.mem_append.mp hm with hm2 | hm2
          · simp at hm2
            exact hm2.2
          · split at hm2 <;> simp at hm2
    rw [hpod]
    rfl
  · intro args hinit
    rw [MountPod_newEvents]
    simp [hinit]
  · intro endpoint region accessKeyID secretAccessKey
    constructor
    · have hmode : mountMode
          { meta := { BucketName := "mybucket", Prefix := "data",
                      MountOptions := ["-o", "ro"] },
            endpoint := endpoint, region := region, accessKeyID := accessKeyID,
            secretAccessKey := secretAccessKey } = 2 := by
        rw [mountMode_eq]
        show modeOf 2 ["-o", "ro"] = 2
        decide
      simp [mountCall, hmode]
    · rw [mountArgs_eq]
      unfold podArgs
      have hp : passThrough
          { meta := { BucketName := "mybucket", Prefix := "data",
                      MountOptions := ["-o", "ro"] },
            endpoint := endpoint, region := region, accessKeyID := accessKeyID,
            secretAccessKey := secretAccessKey } = ["-o", "ro"] := by
        show List.filter (fun o => !isControl o) ["-o", "ro"] = ["-o", "ro"]
        decide
      have hf : fullPath
          { meta := { BucketName := "mybucket", Prefix := "data",
                      MountOptions := ["-o", "ro"] },
            endpoint := endpoint, region := region, accessKeyID := accessKeyID,
            secretAccessKey := secretAccessKey } = "mybucket:data" := by
        show "mybucket" ++ ":" ++ "data" = "mybucket:data"
        decide
      rw [hp, hf]
      generalize mountHead _ = hd
      exact ⟨["--endpoint", endpoint, "-o", "allow_other", "--log-file", "/dev/stderr", "-f"]
        ++ hd, by simp⟩

theorem C4_forwarded_vector_witness :
    (initClientset exampleHost exampleWorld).1 = none ∧
    Event.podsCreate "kube-system"
        (mountPodSpec exampleHost (exampleMounter "mybucket" "data" ["-o", "ro"]) "/mnt/x"
          "vol-1" ["-o", "ro", "mybucket:data", "/mnt/x"] exampleWorld.environ) ∈
      newEvents exampleWorld
        (MountPod exampleHost (exampleMounter "mybucket" "data" ["-o", "ro"]) "/mnt/x" "vol-1"
          ["-o", "ro", "mybucket:data", "/mnt/x"] exampleWorld) :=
  ⟨by decide,
    (C4_forwarded_vector exampleHost (exampleMounter "mybucket" "data" ["-o", "ro"]) "/mnt/x"
      "vol-1" exampleWorld).2.2.2.2.1 ["-o", "ro", "mybucket:data", "/mnt/x"] (by decide)⟩

/-- C10: the path `Mount` ends with is decided by the last control token of
the option list alone: `MountSystemd` when it is `--use-systemd`,
`MountDirect` when it is `--use-exec`, `MountPod` when the list has no
control token; the result of `Mount` is the result of that one call on the
forwarded vector; and neither control token is among the options passed
through, which sit between the head flags and the two paths. -/
theorem C10_last_control_token_decides (h : Host) (g : geesefsMounter)
    (target volumeID : String) (w : World) :
    mountCall g target volumeID =
      (match (g.meta.MountOptions.filter isControl).getLast? with
       | none => .MountPod target volumeID (mountArgs g target)
       | some o =>
         if o = "--use-systemd" then .MountSystemd target volumeID (mountArgs g target)
         else .MountDirect target (mountArgs g target)) ∧
    (∀ o, (g.meta.MountOptions.filter isControl).getLast? = some o →
      o = "--use-systemd" ∨ o = "--use-exec") ∧
    Mount h g target volumeID w =
      (match (g.meta.MountOptions.filter isControl).getLast? with
       | none => MountPod h g target volumeID (mountArgs g target) w
       | some o =>
         if o = "--use-systemd" then MountSystemd h g target volumeID (mountArgs g target) w
         else MountDirect h g target (mountArgs g target) w) ∧
    mountArgs g target = mountHead g ++ passThrough g ++ [fullPath g, target] ∧
    "--use-systemd" ∉ passThrough g ∧ "--use-exec" ∉ passThrough g := by
  have hcall : mountCall g target volumeID =
      (match (g.meta.MountOptions.filter isControl).getLast? with
       | none => .MountPod target volumeID (mountArgs g target)
       | some o =>
         if o = "--use-systemd" then .MountSystemd target volumeID (mountArgs g target)
         else .MountDirect target (mountArgs g target)) := by
    unfold mountCall
    rw [mountMode_eq]
    unfold modeOf
    cases (g.meta.MountOptions.filter isControl).getLast? with
    | none => simp
    | some o =>
      by_cases ho : o = "--use-systemd" <;> simp [ho]
  refine ⟨hcall, fun o ho => (mem_filter_isControl ho).2, ?_, mountArgs_eq g target,
    not_mem_passThrough g⟩
  unfold Mount
  rw [hcall]
  cases (g.meta.MountOptions.filter isControl).getLast? with
  | none => simp [Call.run]
  | some o =>
    by_cases ho : o = "--use-systemd" <;> simp [ho, Call.run]

/-! ## `CopyBinary` (C7) -/

theorem FsOnly.refl (w : World) : FsOnly w w :=
  ⟨[], by simp, by simp, rfl, rfl⟩

theorem FsOnly.trans {w1 w2 w3 : World} (h12 : FsOnly w1 w2) (h23 : FsOnly w2 w3) :
    FsOnly w1 w3 := by
  obtain ⟨e1, ht1, hf1, he1, hc1⟩ := h12
  obtain ⟨e2, ht2, hf2, he2, hc2⟩ := h23
  refine ⟨e1 ++ e2, ?_, ?_, he2.trans he1, hc2.trans hc1⟩
  · rw [ht2, ht1, List.append_assoc]
  · intro e he
    rcases List.mem_append.mp he with he | he
    · exact hf1 e he
    · exact hf2 e he

theorem osStat_fsOnly (h : Host) (path : String) (w : World) :
    FsOnly w (osStat h path w).2 := by
  refine ⟨[.stat path], ?_, by simp [Event.isFs], ?_, ?_⟩ <;>
  · unfold osStat
    cases h.fsFault (.stat path) <;> cases hf : w.fs path <;> simp [World.emit, hf]

theorem osRemove_fsOnly (h : Host) (path : String) (w : World) :
    FsOnly w (osRemove h path w).2 := by
  refine ⟨[.remove path], ?_, by simp [Event.isFs], ?_, ?_⟩ <;>
  · unfold osRemove
    cases h.fsFault (.remove path) <;> cases hf : w.fs path <;> simp [World.emit, hf]

theorem osReadFile_fsOnly (h : Host) (path : String) (w : World) :
    FsOnly w (osReadFile h path w).2 := by
  refine ⟨[.readFile path], ?_, by simp [Event.isFs], ?_, ?_⟩ <;>
  · unfold osReadFile
    cases h.fsFault (.readFile path) <;> cases hf : w.fs path <;> simp [World.emit, hf]

theorem osWriteFile_fsOnly (h : Host) (path : String) (data : List Nat) (perm : Nat)
    (w : World) : FsOnly w (osWriteFile h path data perm w).2 := by
  refine ⟨[.writeFile path data perm], ?_, by simp [Event.isFs], ?_, ?_⟩ <;>
  · unfold osWriteFile
    cases h.fsFault (.writeFile path) <;> simp [World.emit]

theorem osChtimes_fsOnly (h : Host) (path : String) (atime mtime : Int) (w : World) :
    FsOnly w (osChtimes h path atime mtime w).2 := by
  refine ⟨[.chtimes path atime mtime], ?_, by simp [Event.isFs], ?_, ?_⟩ <;>
  · unfold osChtimes
    cases h.fsFault (.chtimes path) <;> cases hf : w.fs path <;> simp [World.emit, hf]

theorem copyAndStamp_fsOnly (h : Host) (src dst : String) (st : FileInfo) (w : World) :
    FsOnly w (copyAndStamp h src dst st w).2 := by
  unfold copyAndStamp
  have h1 := osReadFile_fsOnly h src w
  rcases hr : osReadFile h src w with ⟨r, w1⟩
  rw [hr] at h1
  cases r with
  | error e => exact h1
  | ok bin =>
    have h2 := osWriteFile_fsOnly h dst bin 0o755 w1
    rcases hw : osWriteFile h dst bin 0o755 w1 with ⟨r2, w2⟩
    rw [hw] at h2
    dsimp only at h1 h2 ⊢
    rw [hw]
    cases r2 with
    | some e => exact h1.trans h2
    | none =>
      have h3 := osChtimes_fsOnly h dst st.modTime st.modTime w2
      rcases hc : osChtimes h dst st.modTime st.modTime w2 with ⟨r3, w3⟩
      rw [hc] at h3
      dsimp only at h3 ⊢
      rw [hc]
      cases r3 with
      | some e => exact (h1.trans h2).trans h3
      | none => exact (h1.trans h2).trans h3

/-- `CopyBinary` makes file-system calls only. -/
theorem CopyBinary_fsOnly (h : Host) (src dst : String) (w : World) :
    FsOnly w (CopyBinary h src dst w).2 := by
  unfold CopyBinary
  have h1 := osStat_fsOnly h src w
  rcases hr : osStat h src w with ⟨r, w1⟩
  rw [hr] at h1
  cases r with
  | error e => exact h1
  | ok st =>
    have h2 := osStat_fsOnly h dst w1
    rcases hr2 : osStat h dst w1 with ⟨r2, w2⟩
    rw [hr2] at h2
    dsimp only at h1 h2 ⊢
    rw [hr2]
    cases r2 with
    | error e =>
      dsimp only
      split
      · exact h1.trans h2
      · exact (h1.trans h2).trans (copyAndStamp_fsOnly h src dst st w2)
    | ok st2 =>
      dsimp only
      split
      · have h3 := osRemove_fsOnly h dst w2
        rcases hr3 : osRemove h dst w2 with ⟨r3, w3⟩
        rw [hr3] at h3
        cases r3 with
        | some e => exact (h1.trans h2).trans h3
        | none => exact ((h1.trans h2).trans h3).trans (copyAndStamp_fsOnly h src dst st w3)
      · exact h1.trans h2

/-- The destination exists with the size and the modification time of the
source: only the two `Stat` calls are made. -/
theorem CopyBinary_skip (h : Host) (src dst : String) (w : World) (f f2 : File)
    (hs : h.fsFault (.stat src) = none) (hsrc : w.fs src = some f)
    (hd : h.fsFault (.stat dst) = none) (hdst : w.fs dst = some f2)
    (hsize : f2.data.length = f.data.length) (hmod : f2.modTime = f.modTime) :
    CopyBinary h src dst w = (none, { w with trace := w.trace ++ [.stat src, .stat dst] }) := by
  simp [CopyBinary, osStat, World.emit, hs, hsrc, hd, hdst, hsize, hmod]

/-- The stat of the destination fails, and not because it does not exist:
`CopyBinary` fails after the two `Stat` calls. -/
theorem CopyBinary_stat_fault (h : Host) (src dst : String) (w : World) (f : File) (e : String)
    (hs : h.fsFault (.stat src) = none) (hsrc : w.fs src = some f)
    (hd : h.fsFault (.stat dst) = some e) :
    CopyBinary h src dst w =
      (some ("Failed to stat " ++ dst ++ ": " ++ e),
        { w with trace := w.trace ++ [.stat src, .stat dst] }) := by
  simp [CopyBinary, osStat, World.emit, hs, hsrc, hd]

/-- The destination does not exist: read, write, stamp, and no `Remove`. -/
theorem CopyBinary_create (h : Host) (src dst : String) (w : World) (f : File)
    (hs : h.fsFault (.stat src) = none) (hsrc : w.fs src = some f)
    (hd : h.fsFault (.stat dst) = none) (hdst : w.fs dst = none)
    (hread : h.fsFault (.readFile src) = none) (hwrite : h.fsFault (.writeFile dst) = none)
    (hch : h.fsFault (.chtimes dst) = none) :
    (CopyBinary h src dst w).1 = none ∧
    (CopyBinary h src dst w).2.trace = w.trace ++
      [.stat src, .stat dst, .readFile src, .writeFile dst f.data 0o755,
       .chtimes dst f.modTime f.modTime] ∧
    (CopyBinary h src dst w).2.fs = (fun p =>
      if p = dst then
        some { data := f.data, modTime := stampTime h.now f.modTime,
               accTime := stampTime h.now f.modTime }
      else w.fs p) := by
  simp [CopyBinary, copyAndStamp, osStat, osReadFile, osWriteFile, osChtimes, World.emit,
    hs, hsrc, hd, hdst, hread, hwrite, hch]
  funext p
  by_cases hp : p = dst <;> simp [hp]

/-- The destination exists and its size or modification time differs:
remove, read, write, stamp. -/
theorem CopyBinary_replace (h : Host) (src dst : String) (w : World) (f f2 : File)
    (hs : h.fsFault (.stat src) = none) (hsrc : w.fs src = some f)
    (hd : h.fsFault (.stat dst) = none) (hdst : w.fs dst = some f2)
    (hdiff : f2.data.length ≠ f.data.length ∨ f2.modTime ≠ f.modTime)
    (hrem : h.fsFault (.remove dst) = none)
    (hread : h.fsFault (.readFile src) = none) (hwrite : h.fsFault (.writeFile dst) = none)
    (hch : h.fsFault (.chtimes dst) = none) :
    (CopyBinary h src dst w).1 = none ∧
    (CopyBinary h src dst w).2.trace = w.trace ++
      [.stat src, .stat dst, .remove dst, .readFile src, .writeFile dst f.data 0o755,
       .chtimes dst f.modTime f.modTime] ∧
    (CopyBinary h src dst w).2.fs = (fun p =>
      if p = dst then
        some { data := f.data, modTime := stampTime h.now f.modTime,
               accTime := stampTime h.now f.modTime }
      else w.fs p) := by
  have hne : src ≠ dst := by
    intro he
    rw [he, hdst] at hsrc
    cases hsrc
    simp at hdiff
  simp [CopyBinary, copyAndStamp, osStat, osRemove, osReadFile, osWriteFile, osChtimes,
    World.emit, hs, hsrc, hd, hdst, hdiff, hrem, hread, hwrite, hch, hne]
  funext p
  by_cases hp : p = dst <;> simp [hp]

/-! ## `MountSystemd`, call by call -/

theorem startAndWait_eq (h : Host) (g : geesefsMounter) (target volumeID : String)
    (cmd : List String) (w : World) :
    startAndWait h g target volumeID cmd w =
      ((startOutcome h g target volumeID cmd).1,
        { w with trace := w.trace ++ (startOutcome h g target volumeID cmd).2 }) := by
  unfold startAndWait startOutcome
  cases hs : h.startTransientUnit (unitName h volumeID) (newProps g volumeID cmd) <;>
    simp [World.emit, hs]

/-- After a successful `CopyBinary` that left the world `wc`, the body of
`MountSystemd` returns and emits what `busOutcome` says. -/
theorem mountSystemdBody_eq (h : Host) (g : geesefsMounter) (target volumeID : String)
    (args : List String) (w wc : World)
    (hc : CopyBinary h "/usr/bin/geesefs" "/csi/geesefs" w = (none, wc)) :
    mountSystemdBody h g target volumeID args w =
      ((busOutcome h g target volumeID (systemdArgs g wc.environ args)).1,
        { wc with trace := wc.trace ++
            (busOutcome h g target volumeID (systemdArgs g wc.environ args)).2 }) := by
  unfold mountSystemdBody busOutcome
  rw [hc]
  dsimp only
  cases hg : h.getAllProperties (unitName h volumeID) with
  | error e => simp [startAndWait_eq, World.emit]
  | ok props =>
    dsimp only
    cases hs : props "ActiveState" with
    | none => simp [startAndWait_eq, World.emit]
    | some v =>
      cases v with
      | str s =>
        dsimp only
        by_cases ha : isActive s = true
        · by_cases hp : curPath props = target <;> simp [ha, hp, World.emit]
        · simp [ha, startAndWait_eq, World.emit]
      | strs l => simp [startAndWait_eq, World.emit]
      | recs l => simp [startAndWait_eq, World.emit]
      | other => simp [startAndWait_eq, World.emit]

/-- The result of `MountSystemd` and the calls it makes when the bus is
reached and `CopyBinary` succeeds: `systemd.New`, the file-system calls of
`CopyBinary`, the bus calls of `busOutcome`, `Close`. -/
theorem MountSystemd_eq (h : Host) (g : geesefsMounter) (target volumeID : String)
    (args : List String) (w : World)
    (hnew : h.systemdNew = none)
    (hcopy : (CopyBinary h "/usr/bin/geesefs" "/csi/geesefs" (w.emit .systemdNew)).1 = none) :
    ∃ evs, (∀ e ∈ evs, e.isFs = true) ∧
      (MountSystemd h g target volumeID args w).1 =
        (busOutcome h g target volumeID (systemdArgs g w.environ args)).1 ∧
      newEvents w (MountSystemd h g target volumeID args w) =
        .systemdNew :: evs ++
          (busOutcome h g target volumeID (systemdArgs g w.environ args)).2 ++ [.connClose] := by
  obtain ⟨evs, htr, hfs, henv, _⟩ :=
    CopyBinary_fsOnly h "/usr/bin/geesefs" "/csi/geesefs" (w.emit .systemdNew)
  rcases hc : CopyBinary h "/usr/bin/geesefs" "/csi/geesefs" (w.emit .systemdNew) with ⟨r, wc⟩
  rw [hc] at htr henv hcopy
  dsimp only at htr henv hcopy
  subst hcopy
  have henv2 : wc.environ = w.environ := by rw [henv]; rfl
  refine ⟨evs, hfs, ?_, ?_⟩
  · unfold MountSystemd
    simp only [hnew]
    rw [mountSystemdBody_eq h g target volumeID args _ wc hc, henv2]
  · unfold newEvents MountSystemd
    simp only [hnew]
    rw [mountSystemdBody_eq h g target volumeID args _ wc hc, henv2]
    simp [World.emit, htr]

theorem isFs_not_unit {e : Event} (he : e.isFs = true) :
    e.isUnitChange = false ∧ e.isWait = false := by
  cases e <;> simp [Event.isFs, Event.isUnitChange, Event.isWait] at he ⊢

/-- A `StartTransientUnit` among the bus calls is the one of `startOutcome`,
and then the result is the one of `startOutcome`. -/
theorem busOutcome_start (h : Host) (g : geesefsMounter) (target volumeID : String)
    (cmd : List String) (u m : String) (ps : List Property)
    (hmem : Event.startTransientUnit u m ps ∈ (busOutcome h g target volumeID cmd).2) :
    u = unitName h volumeID ∧ m = "replace" ∧ ps = newProps g volumeID cmd ∧
    (busOutcome h g target volumeID cmd).1 = (startOutcome h g target volumeID cmd).1 := by
  have hstart : Event.startTransientUnit u m ps ∈ (startOutcome h g target volumeID cmd).2 →
      u = unitName h volumeID ∧ m = "replace" ∧ ps = newProps g volumeID cmd := by
    unfold startOutcome
    cases h.startTransientUnit (unitName h volumeID) (newProps g volumeID cmd) <;>
      simp
  unfold busOutcome at hmem ⊢
  cases hg : h.getAllProperties (unitName h volumeID) with
  | error e =>
    rw [hg] at hmem
    simp at hmem
    exact ⟨(hstart hmem).1, (hstart hmem).2.1, (hstart hmem).2.2, rfl⟩
  | ok props =>
    rw [hg] at hmem
    dsimp only at hmem ⊢
    cases hs : props "ActiveState" with
    | none =>
      rw [hs] at hmem
      simp at hmem
      exact ⟨(hstart hmem).1, (hstart hmem).2.1, (hstart hmem).2.2, rfl⟩
    | some v =>
      rw [hs] at hmem
      cases v with
      | str s =>
        dsimp only at hmem ⊢
        by_cases ha : isActive s = true
        · simp [ha] at hmem
        · simp [ha] at hmem ⊢
          exact hstart hmem
      | strs l =>
        simp at hmem
        exact ⟨(hstart hmem).1, (hstart hmem).2.1, (hstart hmem).2.2, rfl⟩
      | recs l =>
        simp at hmem
        exact ⟨(hstart hmem).1, (hstart hmem).2.1, (hstart hmem).2.2, rfl⟩
      | other =>
        simp at hmem
        exact ⟨(hstart hmem).1, (hstart hmem).2.1, (hstart hmem).2.2, rfl⟩

/-- The three ways `MountSystemd` can run: the bus is not reached; `CopyBinary`
fails; or the bus calls of `busOutcome` are made. -/
theorem MountSystemd_cases (h : Host) (g : geesefsMounter) (target volumeID : String)
    (args : List String) (w : World) :
    newEvents w (MountSystemd h g target volumeID args w) = [.systemdNew] ∨
    (∃ evs, (∀ e ∈ evs, e.isFs = true) ∧
      newEvents w (MountSystemd h g target volumeID args w) =
        .systemdNew :: evs ++ [.connClose]) ∨
    (∃ evs, (∀ e ∈ evs, e.isFs = true) ∧
      (MountSystemd h g target volumeID args w).1 =
        (busOutcome h g target volumeID (systemdArgs g w.environ args)).1 ∧
      newEvents w (MountSystemd h g target volumeID args w) =
        .systemdNew :: evs ++
          (busOutcome h g target volumeID (systemdArgs g w.environ args)).2 ++ [.connClose]) := by
  cases hnew : h.systemdNew with
  | some e =>
    left
    simp [newEvents, MountSystemd, hnew, World.emit]
  | none =>
    right
    cases hcopy : (CopyBinary h "/usr/bin/geesefs" "/csi/geesefs" (w.emit .systemdNew)).1 with
    | none => exact Or.inr (MountSystemd_eq h g target volumeID args w hnew hcopy)
    | some e =>
      left
      obtain ⟨evs, htr, hfs, _, _⟩ :=
        CopyBinary_fsOnly h "/usr/bin/geesefs" "/csi/geesefs" (w.emit .systemdNew)
      refine ⟨evs, hfs, ?_⟩
      rcases hc : CopyBinary h "/usr/bin/geesefs" "/csi/geesefs" (w.emit .systemdNew)
        with ⟨r, wc⟩
      rw [hc] at htr hcopy
      dsimp only at htr hcopy
      subst hcopy
      have hbody : mountSystemdBody h g target volumeID args (w.emit .systemdNew) =
          (some e, wc) := by
        unfold mountSystemdBody
        rw [hc]
      unfold newEvents MountSystemd
      simp only [hnew]
      rw [hbody]
      simp [World.emit, htr]

/-- Every `StartTransientUnit` of `MountSystemd` is for the unit of the volume,
in mode `replace`, with `newProps` of the command of line 227, and then the
result of `MountSystemd` is the result of `startOutcome`. -/
theorem MountSystemd_start (h : Host) (g : geesefsMounter) (target volumeID : String)
    (args : List String) (w : World) (u m : String) (ps : List Property)
    (hmem : Event.startTransientUnit u m ps ∈
      newEvents w (MountSystemd h g target volumeID args w)) :
    u = unitName h volumeID ∧ m = "replace" ∧
    ps = newProps g volumeID (systemdArgs g w.environ args) ∧
    (MountSystemd h g target volumeID args w).1 =
      (startOutcome h g target volumeID (systemdArgs g w.environ args)).1 := by
  rcases MountSystemd_cases h g target volumeID args w with hev | ⟨evs, hfs, hev⟩ |
    ⟨evs, hfs, hres, hev⟩
  · rw [hev] at hmem
    simp at hmem
  · rw [hev] at hmem
    simp at hmem
    have := hfs _ hmem
    simp [Event.isFs] at this
  · rw [hev] at hmem
    simp at hmem
    rcases hmem with hmem | hmem
    · have := hfs _ hmem
      simp [Event.isFs] at this
    · obtain ⟨h1, h2, h3, h4⟩ := busOutcome_start h g target volumeID _ u m ps hmem
      exact ⟨h1, h2, h3, hres.trans h4⟩

theorem MountDirect_newEvents (h : Host) (g : geesefsMounter) (target : String)
    (args : List String) (w : World) :
    newEvents w (MountDirect h g target args w) =
      [.setenv "AWS_ACCESS_KEY_ID" g.accessKeyID,
       .setenv "AWS_SECRET_ACCESS_KEY" g.secretAccessKey,
       .fuseMount target "geesefs"
         (["--endpoint", g.endpoint, "-o", "allow_other", "--log-file", "/dev/stderr"]
           ++ args)] := by
  simp [newEvents, MountDirect, World.emit]

theorem stampTime_in_range (old t : Int)
    (hlo : -9223372036854775808 ≤ t) (hhi : t < 9223372036854775808) :
    stampTime old t = t := by
  unfold stampTime unixNano zeroTime
  split
  · omega
  · omega

/-- C7, counterexample: with the source present and no file at the
destination, `CopyBinary` succeeds with `Stat`, `Stat`, `ReadFile`,
`WriteFile`, `Chtimes` and no `Remove`; when the stat of the destination is
refused (the two files differing in size), it fails after the two `Stat`
calls without any copy; and for a source stamped after the year 2262 the
destination ends with another modification time than the source. -/
theorem C7_counterexample :
    (exampleWorld.fs "/usr/bin/geesefs" = some { data := [1, 2, 3], modTime := 5, accTime := 7 } ∧
      exampleWorld.fs "/csi/geesefs" = none ∧
      (CopyBinary exampleHost "/usr/bin/geesefs" "/csi/geesefs" exampleWorld).1 = none ∧
      (CopyBinary exampleHost "/usr/bin/geesefs" "/csi/geesefs" exampleWorld).2.trace =
        [.stat "/usr/bin/geesefs", .stat "/csi/geesefs", .readFile "/usr/bin/geesefs",
         .writeFile "/csi/geesefs" [1, 2, 3] 0o755, .chtimes "/csi/geesefs" 5 5] ∧
      Event.remove "/csi/geesefs" ∉
        (CopyBinary exampleHost "/usr/bin/geesefs" "/csi/geesefs" exampleWorld).2.trace) ∧
    ((CopyBinary statFaultHost "/usr/bin/geesefs" "/csi/geesefs"
        (worldWithHostBinary { data := [9], modTime := 1, accTime := 1 })).1 =
        some "Failed to stat /csi/geesefs: stat /csi/geesefs: permission denied" ∧
      (CopyBinary statFaultHost "/usr/bin/geesefs" "/csi/geesefs"
        (worldWithHostBinary { data := [9], modTime := 1, accTime := 1 })).2.trace =
        [.stat "/usr/bin/geesefs", .stat "/csi/geesefs"]) ∧
    ((CopyBinary exampleHost "/usr/bin/geesefs" "/csi/geesefs" farFutureWorld).1 = none ∧
      farFutureWorld.fs "/usr/bin/geesefs" =
        some { data := [1, 2, 3], modTime := 10413792000000000005, accTime := 7 } ∧
      (CopyBinary exampleHost "/usr/bin/geesefs" "/csi/geesefs" farFutureWorld).2.fs
          "/csi/geesefs" =
        some { data := [1, 2, 3], modTime := -8032952073709551611,
               accTime := -8032952073709551611 }) := by
  decide

/-- C7, amended: with a source that `Stat` succeeds on, (1) when the
destination exists with the size and modification time of the source the sync
is skipped: result nil, only the two `Stat` calls, nothing changed; (2) when
it exists and its size or modification time differs (and the calls succeed)
the sync is `Remove` of the destination, `ReadFile` of the source, `WriteFile`
of those bytes, `Chtimes` asked for the modification time of the source;
(3) when it does not exist the sync is the same without the `Remove`; (4) when
its stat fails for another reason `CopyBinary` fails after the two `Stat`
calls; (5) so, the calls succeeding, the binary is written if and only if the
destination is missing or differs in size or modification time; (6) the two
timestamps the destination ends with are the modification time of the source
as `Chtimes` writes it, which is that time itself when it fits the `int64`
nanoseconds. -/
theorem C7_copy_binary (h : Host) (src dst : String) (w : World) (f : File)
    (hs : h.fsFault (.stat src) = none) (hsrc : w.fs src = some f) :
    (∀ f2, h.fsFault (.stat dst) = none → w.fs dst = some f2 →
      f2.data.length = f.data.length → f2.modTime = f.modTime →
      CopyBinary h src dst w =
        (none, { w with trace := w.trace ++ [.stat src, .stat dst] })) ∧
    (∀ f2, h.fsFault (.stat dst) = none → w.fs dst = some f2 →
      (f2.data.length ≠ f.data.length ∨ f2.modTime ≠ f.modTime) →
      h.fsFault (.remove dst) = none → h.fsFault (.readFile src) = none →
      h.fsFault (.writeFile dst) = none → h.fsFault (.chtimes dst) = none →
      (CopyBinary h src dst w).1 = none ∧
      (CopyBinary h src dst w).2.trace = w.trace ++
        [.stat src, .stat dst, .remove dst, .readFile src, .writeFile dst f.data 0o755,
         .chtimes dst f.modTime f.modTime] ∧
      (CopyBinary h src dst w).2.fs = (fun p =>
        if p = dst then
          some { data := f.data, modTime := stampTime h.now f.modTime,
                 accTime := stampTime h.now f.modTime }
        else w.fs p)) ∧
    (h.fsFault (.stat dst) = none → w.fs dst = none →
      h.fsFault (.readFile src) = none →
      h.fsFault (.writeFile dst) = none → h.fsFault (.chtimes dst) = none →
      (CopyBinary h src dst w).1 = none ∧
      (CopyBinary h src dst w).2.trace = w.trace ++
        [.stat src, .stat dst, .readFile src, .writeFile dst f.data 0o755,
         .chtimes dst f.modTime f.modTime] ∧
      (CopyBinary h src dst w).2.fs = (fun p =>
        if p = dst then
          some { data := f.data, modTime := stampTime h.now f.modTime,
                 accTime := stampTime h.now f.modTime }
        else w.fs p)) ∧
    (∀ e, h.fsFault (.stat dst) = some e →
      CopyBinary h src dst w =
        (some ("Failed to stat " ++ dst ++ ": " ++ e),
          { w with trace := w.trace ++ [.stat src, .stat dst] })) ∧
    (h.fsFault (.stat dst) = none → h.fsFault (.remove dst) = none →
      h.fsFault (.readFile src) = none →
      h.fsFault (.writeFile dst) = none → h.fsFault (.chtimes dst) = none →
      ((∃ data perm, Event.writeFile dst data perm ∈ newEvents w (CopyBinary h src dst w)) ↔
        (w.fs dst = none ∨
          ∃ f2, w.fs dst = some f2 ∧
            (f2.data.length ≠ f.data.length ∨ f2.modTime ≠ f.modTime)))) ∧
    (-9223372036854775808 ≤ f.modTime → f.modTime < 9223372036854775808 →
      stampTime h.now f.modTime = f.modTime) := by
  refine ⟨?_, ?_, ?_, ?_, ?_, ?_⟩
  · intro f2 hd hdst hsize hmod
    exact CopyBinary_skip h src dst w f f2 hs hsrc hd hdst hsize hmod
  · intro f2 hd hdst hdiff hrem hread hwrite hch
    exact CopyBinary_replace h src dst w f f2 hs hsrc hd hdst hdiff hrem hread hwrite hch
  · intro hd hdst hread hwrite hch
    exact CopyBinary_create h src dst w f hs hsrc hd hdst hread hwrite hch
  · intro e hd
    exact CopyBinary_stat_fault h src dst w f e hs hsrc hd
  · intro hd hrem hread hwrite hch
    cases hdst : w.fs dst with
    | none =>
      have htr := (CopyBinary_create h src dst w f hs hsrc hd hdst hread hwrite hch).2.1
      simp only [newEvents, htr, List.drop_left, true_or, iff_true]
      exact ⟨f.data, 0o755, by simp⟩
    | some f2 =>
      by_cases hsame : f2.data.length = f.data.length ∧ f2.modTime = f.modTime
      · have heq := CopyBinary_skip h src dst w f f2 hs hsrc hd hdst hsame.1 hsame.2
        simp [newEvents, heq, hsame.1, hsame.2]
      · have hdiff : f2.data.length ≠ f.data.length ∨ f2.modTime ≠ f.modTime := by
          by_cases h1 : f2.data.length = f.data.length
          · exact Or.inr (fun h2 => hsame ⟨h1, h2⟩)
          · exact Or.inl h1
        have htr :=
          (CopyBinary_replace h src dst w f f2 hs hsrc hd hdst hdiff hrem hread hwrite hch).2.1
        simp only [newEvents, htr, List.drop_left]
        constructor
        · intro _
          exact Or.inr ⟨f2, rfl, hdiff⟩
        · intro _
          exact ⟨f.data, 0o755, by simp⟩
  · intro hlo hhi
    exact stampTime_in_range h.now f.modTime hlo hhi

theorem C7_copy_binary_witness :
    exampleHost.fsFault (.stat "/usr/bin/geesefs") = none ∧
    (worldWithHostBinary { data := [9], modTime := 1, accTime := 1 }).fs "/usr/bin/geesefs" =
      some { data := [1, 2, 3], modTime := 5, accTime := 7 } ∧
    (CopyBinary exampleHost "/usr/bin/geesefs" "/csi/geesefs"
        (worldWithHostBinary { data := [9], modTime := 1, accTime := 1 })).2.trace =
      (worldWithHostBinary { data := [9], modTime := 1, accTime := 1 }).trace ++
        [.stat "/usr/bin/geesefs", .stat "/csi/geesefs", .remove "/csi/geesefs",
         .readFile "/usr/bin/geesefs", .writeFile "/csi/geesefs" [1, 2, 3] 0o755,
         .chtimes "/csi/geesefs" 5 5] ∧
    (CopyBinary exampleHost "/usr/bin/geesefs" "/csi/geesefs"
        (worldWithHostBinary { data := [9], modTime := 1, accTime := 1 })).2.fs
        "/csi/geesefs" = some { data := [1, 2, 3], modTime := 5, accTime := 5 } :=
  ⟨rfl, by decide,
    ((C7_copy_binary exampleHost "/usr/bin/geesefs" "/csi/geesefs"
      (worldWithHostBinary { data := [9], modTime := 1, accTime := 1 })
      { data := [1, 2, 3], modTime := 5, accTime := 7 } rfl (by decide)).2.1
      { data := [9], modTime := 1, accTime := 1 } rfl (by decide) (by decide)
      rfl rfl rfl rfl).2.1,
    by decide⟩

/-! ## `MountSystemd` on a unit that exists (C5, C6, C9) and the waiter (C8) -/

theorem busOutcome_active (h : Host) (g : geesefsMounter) (target volumeID : String)
    (cmd : List String) (props : UnitProps) (s : String)
    (hget : h.getAllProperties (unitName h volumeID) = .ok props)
    (hstate : props "ActiveState" = some (.str s)) (hact : isActive s = true) :
    busOutcome h g target volumeID cmd =
      (if curPath props ≠ target then some (conflictError volumeID target (curPath props))
        else none,
        [.getAllProperties (unitName h volumeID)]) := by
  simp [busOutcome, hget, hstate, hact]

/-- On an active unit `MountSystemd` makes no call that changes a unit and does
not call the waiter; it returns nil when `curPath` is the target and the
conflict error otherwise. -/
theorem MountSystemd_active (h : Host) (g : geesefsMounter) (target volumeID : String)
    (args : List String) (w : World) (props : UnitProps) (s : String)
    (hnew : h.systemdNew = none)
    (hcopy : (CopyBinary h "/usr/bin/geesefs" "/csi/geesefs" (w.emit .systemdNew)).1 = none)
    (hget : h.getAllProperties (unitName h volumeID) = .ok props)
    (hstate : props "ActiveState" = some (.str s)) (hact : isActive s = true) :
    (MountSystemd h g target volumeID args w).1 =
      (if curPath props ≠ target then some (conflictError volumeID target (curPath props))
        else none) ∧
    (∀ e ∈ newEvents w (MountSystemd h g target volumeID args w),
      e.isUnitChange = false ∧ e.isWait = false) := by
  obtain ⟨evs, hfs, hres, hev⟩ := MountSystemd_eq h g target volumeID args w hnew hcopy
  rw [busOutcome_active h g target volumeID _ props s hget hstate hact] at hres hev
  refine ⟨hres, ?_⟩
  intro e he
  rw [hev] at he
  simp at he
  rcases he with he | he | he | he
  · subst he
    simp [Event.isUnitChange, Event.isWait]
  · exact isFs_not_unit (hfs e he)
  · subst he
    simp [Event.isUnitChange, Event.isWait]
  · subst he
    simp [Event.isUnitChange, Event.isWait]

theorem curPath_of_shape (props : UnitProps) (p0 : Field) (l : List String)
    (rest : List Field) (more : List (List Field)) (cur : String)
    (hexec : props "ExecStart" = some (.recs ((p0 :: .strs l :: rest) :: more)))
    (hlen : 2 ≤ l.length) (hlast : l.getLast? = some cur) :
    curPath props = cur := by
  unfold curPath
  rw [hexec]
  simp [hlen, List.getLastD_eq_getLast?, hlast]

theorem curPath_of_unreadable (props : UnitProps)
    (hun : unreadableExecStart props = true) : curPath props = "" := by
  unfold unreadableExecStart at hun
  unfold curPath
  cases hv : props "ExecStart" with
  | none => rfl
  | some pv =>
    rw [hv] at hun
    cases pv with
    | str s => rfl
    | strs l => rfl
    | other => rfl
    | recs l =>
      cases l with
      | nil => rfl
      | cons r more =>
        cases r with
        | nil => simp
        | cons a r1 =>
          cases r1 with
          | nil => simp
          | cons b r2 =>
            cases b with
            | strs l2 =>
              simp at hun ⊢
              omega
            | str s2 => simp
            | bool b2 => simp
            | uint n2 => simp
            | other => simp

theorem systemdArgs_last (g : geesefsMounter) (environ : String → String) (target : String) :
    2 ≤ (systemdArgs g environ (mountArgs g target)).length ∧
    (systemdArgs g environ (mountArgs g target)).getLast? = some target := by
  unfold systemdArgs mountArgs
  constructor
  · simp
  · rw [List.getLast?_eq_some_iff]
    exact ⟨[pluginDir environ ++ "/geesefs", "-f", "-o", "allow_other", "--endpoint",
        g.endpoint] ++ (mountLoop g.meta.MountOptions 2 (mountHead g)).2 ++ [fullPath g],
      by simp⟩

/-- Every `StartTransientUnit` made under `Mount` carries `newProps` of the
command built from the forwarded vector. -/
theorem Mount_start (h : Host) (g : geesefsMounter) (target volumeID : String) (w : World)
    (u m : String) (ps : List Property)
    (hmem : Event.startTransientUnit u m ps ∈ newEvents w (Mount h g target volumeID w)) :
    ps = newProps g volumeID (systemdArgs g w.environ (mountArgs g target)) := by
  unfold Mount mountCall at hmem
  split at hmem
  · exact (MountSystemd_start h g target volumeID _ w u m ps hmem).2.2.1
  · split at hmem
    · simp only [Call.run] at hmem
      rw [MountPod_newEvents] at hmem
      simp only [List.mem_append] at hmem
      rcases hmem with hmem | hmem
      · split at hmem
        · simp at hmem
        · split at hmem <;> simp at hmem
      · split at hmem
        · simp at hmem
        · rcases List.mem_append.mp hmem with hm | hm
          · simp at hm
          · split at hm <;> simp at hm
    · simp only [Call.run] at hmem
      rw [MountDirect_newEvents] at hmem
      simp at hmem

theorem conflictError_names (volumeID target cur : String) :
    target.data <:+: (conflictError volumeID target cur).data ∧
    cur.data <:+: (conflictError volumeID target cur).data := by
  constructor
  · exact ⟨("GeeseFS for volume " ++ volumeID ++ " is already mounted on host, but" ++
        " in a different directory. We want ").data, (", but it\x27s in " ++ cur).data,
      by simp [conflictError, String.data_append]⟩
  · exact ⟨("GeeseFS for volume " ++ volumeID ++ " is already mounted on host, but" ++
        " in a different directory. We want " ++ target ++ ", but it\x27s in ").data, [],
      by simp [conflictError, String.data_append]⟩

/-- C5: the command a first `Mount` hands to `StartTransientUnit` (the
`ExecStart` of `newProps`) has at least two elements and ends with the
target; so when a second `MountSystemd` for the same volume and target reaches
the bus and finds the unit with `ActiveState` active, activating or reloading
and that command recorded in `ExecStart`, it returns nil and makes no
`StartTransientUnit`, `StopUnit` or `ResetFailedUnit` call and no call to the
waiter; the same holds for a second `Mount` that takes the systemd path. -/
theorem C5_idempotent_remount (h1 h2 : Host) (g g2 : geesefsMounter)
    (target volumeID : String) (w1 w2 : World) (args2 : List String)
    (props : UnitProps) (s : String) (p0 : Field) (rest : List Field)
    (more : List (List Field))
    (hnew : h2.systemdNew = none)
    (hcopy : (CopyBinary h2 "/usr/bin/geesefs" "/csi/geesefs" (w2.emit .systemdNew)).1 = none)
    (hget : h2.getAllProperties (unitName h2 volumeID) = .ok props)
    (hstate : props "ActiveState" = some (.str s))
    (hact : s = "active" ∨ s = "activating" ∨ s = "reloading")
    (hexec : props "ExecStart" = some (.recs
      ((p0 :: .strs (systemdArgs g w1.environ (mountArgs g target)) :: rest) :: more))) :
    (2 ≤ (systemdArgs g w1.environ (mountArgs g target)).length ∧
      (systemdArgs g w1.environ (mountArgs g target)).getLast? = some target) ∧
    (∀ u m ps,
      Event.startTransientUnit u m ps ∈ newEvents w1 (Mount h1 g target volumeID w1) →
      ps = newProps g volumeID (systemdArgs g w1.environ (mountArgs g target)) ∧
      PropExecStart (systemdArgs g w1.environ (mountArgs g target)) false ∈ ps) ∧
    ((MountSystemd h2 g2 target volumeID args2 w2).1 = none ∧
      ∀ e ∈ newEvents w2 (MountSystemd h2 g2 target volumeID args2 w2),
        e.isUnitChange = false ∧ e.isWait = false) ∧
    (mountMode g2 = 1 →
      (Mount h2 g2 target volumeID w2).1 = none ∧
      ∀ e ∈ newEvents w2 (Mount h2 g2 target volumeID w2),
        e.isUnitChange = false ∧ e.isWait = false) := by
  have hlast := systemdArgs_last g w1.environ target
  have hactive : isActive s = true := by
    rcases hact with ha | ha | ha <;> simp [isActive, ha]
  have hcur : curPath props = target :=
    curPath_of_shape props p0 _ rest more target hexec hlast.1 hlast.2
  have hsecond : ∀ args, (MountSystemd h2 g2 target volumeID args w2).1 = none ∧
      ∀ e ∈ newEvents w2 (MountSystemd h2 g2 target volumeID args w2),
        e.isUnitChange = false ∧ e.isWait = false := by
    intro args
    have hm := MountSystemd_active h2 g2 target volumeID args w2 props s hnew hcopy hget
      hstate hactive
    rw [hcur] at hm
    simpa using hm
  refine ⟨hlast, ?_, hsecond args2, ?_⟩
  · intro u m ps hmem
    have hps := Mount_start h1 g target volumeID w1 u m ps hmem
    refine ⟨hps, ?_⟩
    rw [hps]
    simp [newProps]
  · intro hmode
    have hcall : Mount h2 g2 target volumeID w2 =
        MountSystemd h2 g2 target volumeID (mountArgs g2 target) w2 := by
      simp [Mount, mountCall, hmode, Call.run]
    rw [hcall]
    exact hsecond _

theorem C5_idempotent_remount_witness :
    (activeHost (some (recordedExecStart
        (systemdArgs (exampleMounter "mybucket" "data" ["--use-systemd"]) exampleWorld.environ
          (mountArgs (exampleMounter "mybucket" "data" ["--use-systemd"]) "/mnt/x"))))).systemdNew
      = none ∧
    (CopyBinary
        (activeHost (some (recordedExecStart
          (systemdArgs (exampleMounter "mybucket" "data" ["--use-systemd"])
            exampleWorld.environ
            (mountArgs (exampleMounter "mybucket" "data" ["--use-systemd"]) "/mnt/x")))))
        "/usr/bin/geesefs" "/csi/geesefs" (exampleWorld.emit .systemdNew)).1 = none ∧
    (MountSystemd
        (activeHost (some (recordedExecStart
          (systemdArgs (exampleMounter "mybucket" "data" ["--use-systemd"])
            exampleWorld.environ
            (mountArgs (exampleMounter "mybucket" "data" ["--use-systemd"]) "/mnt/x")))))
        (exampleMounter "mybucket" "data" ["--use-systemd"]) "/mnt/x" "vol-1"
        (mountArgs (exampleMounter "mybucket" "data" ["--use-systemd"]) "/mnt/x")
        exampleWorld).1 = none :=
  ⟨rfl, by decide,
    (C5_idempotent_remount exampleHost
      (activeHost (some (recordedExecStart
        (systemdArgs (exampleMounter "mybucket" "data" ["--use-systemd"]) exampleWorld.environ
          (mountArgs (exampleMounter "mybucket" "data" ["--use-systemd"]) "/mnt/x")))))
      (exampleMounter "mybucket" "data" ["--use-systemd"])
      (exampleMounter "mybucket" "data" ["--use-systemd"])
      "/mnt/x" "vol-1" exampleWorld exampleWorld
      (mountArgs (exampleMounter "mybucket" "data" ["--use-systemd"]) "/mnt/x")
      (fun k =>
        if k = "ActiveState" then some (.str "active")
        else if k = "ExecStart" then
          some (recordedExecStart
            (systemdArgs (exampleMounter "mybucket" "data" ["--use-systemd"])
              exampleWorld.environ
              (mountArgs (exampleMounter "mybucket" "data" ["--use-systemd"]) "/mnt/x")))
        else none)
      "active" (.str "/var/lib/kubelet/plugins/ru.yandex.s3.csi/geesefs") [.bool false] []
      rfl (by decide) rfl rfl (Or.inl rfl) rfl).2.2.1.1⟩

/-- The bus cannot be reached: `MountSystemd` returns the error of
`systemd.New` and makes no other call. -/
theorem MountSystemd_no_bus (h : Host) (g : geesefsMounter) (target volumeID : String)
    (args : List String) (w : World) (e : String) (hnew : h.systemdNew = some e) :
    (MountSystemd h g target volumeID args w).1 = some e ∧
    newEvents w (MountSystemd h g target volumeID args w) = [.systemdNew] := by
  simp [newEvents, MountSystemd, hnew, World.emit]

/-- The sync of the binary fails: `MountSystemd` returns that error after the
file-system calls of `CopyBinary`, and makes no bus call but `Close`. -/
theorem MountSystemd_copy_fail (h : Host) (g : geesefsMounter) (target volumeID : String)
    (args : List String) (w : World) (e : String) (hnew : h.systemdNew = none)
    (hcopy : (CopyBinary h "/usr/bin/geesefs" "/csi/geesefs" (w.emit .systemdNew)).1 = some e) :
    (MountSystemd h g target volumeID args w).1 = some e ∧
    ∃ evs, (∀ e ∈ evs, e.isFs = true) ∧
      newEvents w (MountSystemd h g target volumeID args w) =
        .systemdNew :: evs ++ [.connClose] := by
  obtain ⟨evs, htr, hfs, _, _⟩ :=
    CopyBinary_fsOnly h "/usr/bin/geesefs" "/csi/geesefs" (w.emit .systemdNew)
  rcases hc : CopyBinary h "/usr/bin/geesefs" "/csi/geesefs" (w.emit .systemdNew)
    with ⟨r, wc⟩
  rw [hc] at htr hcopy
  dsimp only at htr hcopy
  subst hcopy
  have hbody : mountSystemdBody h g target volumeID args (w.emit .systemdNew) =
      (some e, wc) := by
    unfold mountSystemdBody
    rw [hc]
  refine ⟨?_, evs, hfs, ?_⟩
  · unfold MountSystemd
    simp only [hnew]
    rw [hbody]
  · unfold newEvents MountSystemd
    simp only [hnew]
    rw [hbody]
    simp [World.emit, htr]

/-- On an active unit, whether or not the bus is reached and the binary is
synced, `MountSystemd` makes no call that changes a unit and no call to the
waiter, and it fails when `curPath` is not the target. -/
theorem MountSystemd_active_any (h : Host) (g : geesefsMounter) (target volumeID : String)
    (args : List String) (w : World) (props : UnitProps) (s : String)
    (hget : h.getAllProperties (unitName h volumeID) = .ok props)
    (hstate : props "ActiveState" = some (.str s)) (hact : isActive s = true) :
    (∀ e ∈ newEvents w (MountSystemd h g target volumeID args w),
      e.isUnitChange = false ∧ e.isWait = false) ∧
    (curPath props ≠ target → (MountSystemd h g target volumeID args w).1 ≠ none) := by
  cases hnew : h.systemdNew with
  | some e =>
    obtain ⟨hres, hev⟩ := MountSystemd_no_bus h g target volumeID args w e hnew
    rw [hres, hev]
    simp [Event.isUnitChange, Event.isWait]
  | none =>
    cases hcopy : (CopyBinary h "/usr/bin/geesefs" "/csi/geesefs" (w.emit .systemdNew)).1 with
    | some e =>
      obtain ⟨hres, evs, hfs, hev⟩ :=
        MountSystemd_copy_fail h g target volumeID args w e hnew hcopy
      rw [hres, hev]
      refine ⟨?_, by simp⟩
      intro e he
      simp at he
      rcases he with he | he | he
      · subst he
        simp [Event.isUnitChange, Event.isWait]
      · exact isFs_not_unit (hfs e he)
      · subst he
        simp [Event.isUnitChange, Event.isWait]
    | none =>
      have hm := MountSystemd_active h g target volumeID args w props s hnew hcopy hget
        hstate hact
      refine ⟨hm.2, ?_⟩
      intro hne
      rw [hm.1, if_pos hne]
      simp

/-- C6, counterexample: with the unit of the volume active and recorded at
`/mnt/y`, a mount of `/mnt/x` returns the stat error of `CopyBinary` when the
packaged binary is missing, and the error of `systemd.New` when the bus cannot
be reached; neither is the conflict error. -/
theorem C6_counterexample :
    (((activeHost (some (recordedExecStart
          ["/plugins/geesefs", "-f", "mybucket:data", "/mnt/y"]))).getAllProperties
        (unitName (activeHost (some (recordedExecStart
          ["/plugins/geesefs", "-f", "mybucket:data", "/mnt/y"]))) "vol-1")).toOption.map
        (fun props => (props "ActiveState", curPath props)) =
      some (some (.str "active"), "/mnt/y")) ∧
    ((MountSystemd
        (activeHost (some (recordedExecStart
          ["/plugins/geesefs", "-f", "mybucket:data", "/mnt/y"])))
        (exampleMounter "mybucket" "data" ["--use-systemd"]) "/mnt/x" "vol-1"
        ["mybucket:data", "/mnt/x"] bareWorld).1 =
      some ("Failed to stat /usr/bin/geesefs: " ++
        "stat /usr/bin/geesefs: no such file or directory")) ∧
    ((MountSystemd
        (withoutBus (activeHost (some (recordedExecStart
          ["/plugins/geesefs", "-f", "mybucket:data", "/mnt/y"]))))
        (exampleMounter "mybucket" "data" ["--use-systemd"]) "/mnt/x" "vol-1"
        ["mybucket:data", "/mnt/x"] exampleWorld).1 =
      some "dial unix /var/run/dbus/system_bus_socket: connect: no such file or directory") ∧
    ((MountSystemd
        (activeHost (some (recordedExecStart
          ["/plugins/geesefs", "-f", "mybucket:data", "/mnt/y"])))
        (exampleMounter "mybucket" "data" ["--use-systemd"]) "/mnt/x" "vol-1"
        ["mybucket:data", "/mnt/x"] bareWorld).1 ≠
      some (conflictError "vol-1" "/mnt/x" "/mnt/y")) := by
  decide

/-- C6, amended: when the unit of the volume is reported with `ActiveState`
active, activating or reloading and a recorded `ExecStart` whose argument list
(of at least two elements) ends with a path other than the target,
`MountSystemd` returns an error and makes no `StopUnit`, `ResetFailedUnit` or
`StartTransientUnit` call; and when the bus was reached and the binary synced,
that error is the conflict error, which contains both the target and the
current path. -/
theorem C6_conflict_detection (h : Host) (g : geesefsMounter) (target volumeID : String)
    (args : List String) (w : World) (props : UnitProps) (s cur : String)
    (p0 : Field) (execArgs : List String) (rest : List Field) (more : List (List Field))
    (hget : h.getAllProperties (unitName h volumeID) = .ok props)
    (hstate : props "ActiveState" = some (.str s))
    (hact : s = "active" ∨ s = "activating" ∨ s = "reloading")
    (hexec : props "ExecStart" = some (.recs ((p0 :: .strs execArgs :: rest) :: more)))
    (hlen : 2 ≤ execArgs.length) (hlast : execArgs.getLast? = some cur)
    (hdiff : cur ≠ target) :
    (MountSystemd h g target volumeID args w).1 ≠ none ∧
    (∀ e ∈ newEvents w (MountSystemd h g target volumeID args w),
      e.isUnitChange = false) ∧
    (∀ u m ps, Event.startTransientUnit u m ps ∉
        newEvents w (MountSystemd h g target volumeID args w)) ∧
    (∀ u m, Event.stopUnit u m ∉ newEvents w (MountSystemd h g target volumeID args w)) ∧
    (∀ u, Event.resetFailedUnit u ∉ newEvents w (MountSystemd h g target volumeID args w)) ∧
    (h.systemdNew = none →
      (CopyBinary h "/usr/bin/geesefs" "/csi/geesefs" (w.emit .systemdNew)).1 = none →
      (MountSystemd h g target volumeID args w).1 =
        some (conflictError volumeID target cur)) ∧
    target.data <:+: (conflictError volumeID target cur).data ∧
    cur.data <:+: (conflictError volumeID target cur).data := by
  have hactive : isActive s = true := by
    rcases hact with ha | ha | ha <;> simp [isActive, ha]
  have hcur : curPath props = cur :=
    curPath_of_shape props p0 execArgs rest more cur hexec hlen hlast
  have hany := MountSystemd_active_any h g target volumeID args w props s hget hstate hactive
  rw [hcur] at hany
  have hev : ∀ e ∈ newEvents w (MountSystemd h g target volumeID args w),
      e.isUnitChange = false := fun e he => (hany.1 e he).1
  refine ⟨hany.2 hdiff, hev, ?_, ?_, ?_, ?_, (conflictError_names volumeID target cur).1,
    (conflictError_names volumeID target cur).2⟩
  · intro u m ps hmem
    have := hev _ hmem
    simp [Event.isUnitChange] at this
  · intro u m hmem
    have := hev _ hmem
    simp [Event.isUnitChange] at this
  · intro u hmem
    have := hev _ hmem
    simp [Event.isUnitChange] at this
  · intro hnew hcopy
    have hm := MountSystemd_active h g target volumeID args w props s hnew hcopy hget
      hstate hactive
    rw [hm.1, hcur, if_pos hdiff]

theorem C6_conflict_detection_witness :
    "/mnt/y" ≠ "/mnt/x" ∧
    (activeHost (some (recordedExecStart
        ["/plugins/geesefs", "-f", "mybucket:data", "/mnt/y"]))).systemdNew = none ∧
    (CopyBinary
        (activeHost (some (recordedExecStart
          ["/plugins/geesefs", "-f", "mybucket:data", "/mnt/y"])))
        "/usr/bin/geesefs" "/csi/geesefs" (exampleWorld.emit .systemdNew)).1 = none ∧
    (MountSystemd
        (activeHost (some (recordedExecStart
          ["/plugins/geesefs", "-f", "mybucket:data", "/mnt/y"])))
        (exampleMounter "mybucket" "data" ["--use-systemd"]) "/mnt/x" "vol-1"
        ["mybucket:data", "/mnt/x"] exampleWorld).1 =
      some (conflictError "vol-1" "/mnt/x" "/mnt/y") :=
  ⟨by decide, rfl, by decide,
    (C6_conflict_detection
      (activeHost (some (recordedExecStart
        ["/plugins/geesefs", "-f", "mybucket:data", "/mnt/y"])))
      (exampleMounter "mybucket" "data" ["--use-systemd"]) "/mnt/x" "vol-1"
      ["mybucket:data", "/mnt/x"] exampleWorld
      (fun k =>
        if k = "ActiveState" then some (.str "active")
        else if k = "ExecStart" then
          some (recordedExecStart ["/plugins/geesefs", "-f", "mybucket:data", "/mnt/y"])
        else none)
      "active" "/mnt/y" (.str "/plugins/geesefs")
      ["/plugins/geesefs", "-f", "mybucket:data", "/mnt/y"] [.bool false] []
      rfl rfl (Or.inl rfl) rfl (by decide) (by decide) (by decide)).2.2.2.2.2.1
      rfl (by decide)⟩

/-- C9, counterexample: with the unit of the volume active, no `ExecStart`
among its properties and the packaged binary missing, `MountSystemd` returns
the stat error of `CopyBinary`: for the empty target that is not success, and
for the target `/mnt/x` it is not the conflict error. -/
theorem C9_counterexample :
    (((activeHost none).getAllProperties (unitName (activeHost none) "vol-1")).toOption.map
        (fun props => (props "ActiveState", unreadableExecStart props)) =
      some (some (.str "active"), true)) ∧
    ((MountSystemd (activeHost none) (exampleMounter "mybucket" "data" ["--use-systemd"])
        "" "vol-1" ["mybucket:data", ""] bareWorld).1 =
      some ("Failed to stat /usr/bin/geesefs: " ++
        "stat /usr/bin/geesefs: no such file or directory")) ∧
    ((MountSystemd (activeHost none) (exampleMounter "mybucket" "data" ["--use-systemd"])
        "/mnt/x" "vol-1" ["mybucket:data", "/mnt/x"] bareWorld).1 =
      some ("Failed to stat /usr/bin/geesefs: " ++
        "stat /usr/bin/geesefs: no such file or directory")) ∧
    ((MountSystemd (activeHost none) (exampleMounter "mybucket" "data" ["--use-systemd"])
        "/mnt/x" "vol-1" ["mybucket:data", "/mnt/x"] bareWorld).1 ≠
      some (conflictError "vol-1" "/mnt/x" "")) := by
  decide

/-- C9, amended: when the unit of the volume is reported with `ActiveState`
active, activating or reloading but an `ExecStart` of none of the expected
shape, the path extracted is the empty string and `MountSystemd` starts, stops
and resets nothing; for a target that is not empty it fails, and when the bus
was reached and the binary synced it fails with the conflict error reporting
an empty current path, and returns nil for the empty target. -/
theorem C9_unreadable_exec_start (h : Host) (g : geesefsMounter) (target volumeID : String)
    (args : List String) (w : World) (props : UnitProps) (s : String)
    (hget : h.getAllProperties (unitName h volumeID) = .ok props)
    (hstate : props "ActiveState" = some (.str s))
    (hact : s = "active" ∨ s = "activating" ∨ s = "reloading")
    (hun : unreadableExecStart props = true) :
    curPath props = "" ∧
    (∀ e ∈ newEvents w (MountSystemd h g target volumeID args w),
      e.isUnitChange = false) ∧
    (target ≠ "" → (MountSystemd h g target volumeID args w).1 ≠ none) ∧
    (h.systemdNew = none →
      (CopyBinary h "/usr/bin/geesefs" "/csi/geesefs" (w.emit .systemdNew)).1 = none →
      (target ≠ "" →
        (MountSystemd h g target volumeID args w).1 =
          some (conflictError volumeID target "")) ∧
      (target = "" → (MountSystemd h g target volumeID args w).1 = none)) := by
  have hactive : isActive s = true := by
    rcases hact with ha | ha | ha <;> simp [isActive, ha]
  have hcur := curPath_of_unreadable props hun
  have hany := MountSystemd_active_any h g target volumeID args w props s hget hstate hactive
  rw [hcur] at hany
  refine ⟨hcur, fun e he => (hany.1 e he).1, fun ht => hany.2 (Ne.symm ht), ?_⟩
  intro hnew hcopy
  have hm := MountSystemd_active h g target volumeID args w props s hnew hcopy hget
    hstate hactive
  rw [hcur] at hm
  constructor
  · intro ht
    rw [hm.1, if_pos (Ne.symm ht)]
  · intro ht
    rw [hm.1]
    simp [ht]

theorem C9_unreadable_exec_start_witness :
    unreadableExecStart (fun k =>
      if k = "ActiveState" then some (.str "active")
      else if k = "ExecStart" then none
      else none) = true ∧
    (activeHost none).systemdNew = none ∧
    (CopyBinary (activeHost none) "/usr/bin/geesefs" "/csi/geesefs"
        (exampleWorld.emit .systemdNew)).1 = none ∧
    "/mnt/x" ≠ "" ∧
    (MountSystemd (activeHost none)
        (exampleMounter "mybucket" "data" ["--use-systemd"]) "/mnt/x" "vol-1"
        ["mybucket:data", "/mnt/x"] exampleWorld).1 =
      some (conflictError "vol-1" "/mnt/x" "") :=
  ⟨by decide, rfl, by decide, by decide,
    ((C9_unreadable_exec_start (activeHost none)
      (exampleMounter "mybucket" "data" ["--use-systemd"]) "/mnt/x" "vol-1"
      ["mybucket:data", "/mnt/x"] exampleWorld
      (fun k =>
        if k = "ActiveState" then some (.str "active")
        else if k = "ExecStart" then none
        else none)
      "active" rfl rfl (Or.inl rfl) (by decide)).2.2.2 rfl (by decide)).1 (by decide)⟩

/-- The result of `MountPod` once the pod was created. -/
theorem MountPod_after_create (h : Host) (g : geesefsMounter) (target volumeID : String)
    (args : List String) (w : World) (ns : String) (pod : Pod)
    (hmem : Event.podsCreate ns pod ∈ newEvents w (MountPod h g target volumeID args w))
    (hok : h.podsCreate pod = none) :
    (MountPod h g target volumeID args w).1 = h.waitForMount target (20 * Second) := by
  unfold newEvents MountPod initClientset at hmem
  unfold MountPod initClientset
  by_cases hc : w.clientset = true
  · simp only [hc, if_true] at hmem ⊢
    cases hp : h.podsCreate (mountPodSpec h g target volumeID args w.environ) with
    | none => simp [World.emit, hp]
    | some e =>
      simp [World.emit, hp] at hmem
      rw [hmem.2] at hok
      rw [hok] at hp
      cases hp
  · simp only [hc] at hmem ⊢
    cases h1 : h.inClusterConfig with
    | some e => simp [World.emit, h1] at hmem
    | none =>
      cases h2 : h.newForConfig with
      | some e => simp [World.emit, h1, h2] at hmem
      | none =>
        cases hp : h.podsCreate (mountPodSpec h g target volumeID args w.environ) with
        | none => simp [World.emit, hp]
        | some e =>
          simp [World.emit, h1, h2, hp] at hmem
          rw [hmem.2] at hok
          rw [hok] at hp
          cases hp

/-- The result of `MountPod` when the cluster client is there and the pod is
created. -/
theorem MountPod_created (h : Host) (g : geesefsMounter) (target volumeID : String)
    (args : List String) (w : World)
    (hinit : (initClientset h w).1 = none)
    (hok : h.podsCreate (mountPodSpec h g target volumeID args w.environ) = none) :
    (MountPod h g target volumeID args w).1 = h.waitForMount target (20 * Second) ∧
    newEvents w (MountPod h g target volumeID args w) =
      (if w.clientset then [] else [.inClusterConfig, .newForConfig]) ++
      [.podsDelete "kube-system" (podName volumeID w.environ),
       .podsCreate "kube-system" (mountPodSpec h g target volumeID args w.environ),
       .waitForMount target (20 * Second)] := by
  constructor
  · unfold initClientset at hinit
    unfold MountPod initClientset
    by_cases hc : w.clientset = true
    · simp [hc, World.emit, hok]
    · simp only [hc] at hinit ⊢
      cases h1 : h.inClusterConfig with
      | some e => simp [h1] at hinit
      | none =>
        cases h2 : h.newForConfig with
        | some e => simp [h1, h2] at hinit
        | none => simp [World.emit, hok]
  · rw [MountPod_newEvents]
    simp only [hinit, hok]
    unfold initClientset at hinit
    by_cases hc : w.clientset = true
    · simp [hc]
    · simp only [hc] at hinit
      cases h1 : h.inClusterConfig with
      | some e => simp [h1] at hinit
      | none => simp [hc]

/-- The bus calls when the unit is not found or not active: the result and the
calls of `startOutcome` are among those of `busOutcome`. -/
theorem busOutcome_inactive (h : Host) (g : geesefsMounter) (target volumeID : String)
    (cmd : List String)
    (hinactive : ∀ props s, h.getAllProperties (unitName h volumeID) = .ok props →
      props "ActiveState" = some (.str s) → isActive s = false) :
    (busOutcome h g target volumeID cmd).1 = (startOutcome h g target volumeID cmd).1 ∧
    ∀ e ∈ (startOutcome h g target volumeID cmd).2, e ∈ (busOutcome h g target volumeID cmd).2 := by
  unfold busOutcome
  cases hg : h.getAllProperties (unitName h volumeID) with
  | error e =>
    refine ⟨rfl, ?_⟩
    intro e he
    simp [he]
  | ok props =>
    dsimp only
    cases hs : props "ActiveState" with
    | none =>
      refine ⟨rfl, ?_⟩
      intro e he
      simp [he]
    | some v =>
      cases v with
      | str s =>
        have hi := hinactive props s hg hs
        dsimp only
        rw [hi]
        refine ⟨by simp, ?_⟩
        intro e he
        simp [he]
      | strs l =>
        refine ⟨rfl, ?_⟩
        intro e he
        simp [he]
      | recs l =>
        refine ⟨rfl, ?_⟩
        intro e he
        simp [he]
      | other =>
        refine ⟨rfl, ?_⟩
        intro e he
        simp [he]

/-- The result and the bus calls of `MountSystemd` when the bus is reached, the
binary synced, the unit not active and `StartTransientUnit` succeeds. -/
theorem MountSystemd_started (h : Host) (g : geesefsMounter) (target volumeID : String)
    (args : List String) (w : World)
    (hnew : h.systemdNew = none)
    (hcopy : (CopyBinary h "/usr/bin/geesefs" "/csi/geesefs" (w.emit .systemdNew)).1 = none)
    (hinactive : ∀ props s, h.getAllProperties (unitName h volumeID) = .ok props →
      props "ActiveState" = some (.str s) → isActive s = false)
    (hstart : h.startTransientUnit (unitName h volumeID)
      (newProps g volumeID (systemdArgs g w.environ args)) = none) :
    (MountSystemd h g target volumeID args w).1 = h.waitForMount target (10 * Second) ∧
    Event.startTransientUnit (unitName h volumeID) "replace"
        (newProps g volumeID (systemdArgs g w.environ args)) ∈
      newEvents w (MountSystemd h g target volumeID args w) ∧
    Event.waitForMount target (10 * Second) ∈
      newEvents w (MountSystemd h g target volumeID args w) := by
  obtain ⟨evs, _, hres, hev⟩ := MountSystemd_eq h g target volumeID args w hnew hcopy
  obtain ⟨hb1, hb2⟩ := busOutcome_inactive h g target volumeID
    (systemdArgs g w.environ args) hinactive
  have hso : startOutcome h g target volumeID (systemdArgs g w.environ args) =
      (h.waitForMount target (10 * Second),
        [.startTransientUnit (unitName h volumeID) "replace"
          (newProps g volumeID (systemdArgs g w.environ args)),
         .waitForMount target (10 * Second)]) := by
    unfold startOutcome
    rw [hstart]
  rw [hso] at hb1 hb2
  refine ⟨hres.trans hb1, ?_, ?_⟩
  · rw [hev]
    have := hb2 _ (List.mem_cons_self _ _)
    simp [this]
  · rw [hev]
    have := hb2 (.waitForMount target (10 * Second)) (by simp)
    simp [this]

/-- C8: with the waiter an abstract function of the target and the deadline,
`MountSystemd` after a `StartTransientUnit` that succeeded returns the result
of the waiter for the target and 10 seconds, and `MountPod` after a pod
creation that succeeded returns the result of the waiter for the target and
20 seconds, so an error of the waiter (a timeout) is the error of the call,
which is then not nil; and both calls do get there: `MountSystemd` when the
bus is reached, the binary synced, the unit not active and the start accepted,
`MountPod` when the cluster client is there and the creation accepted. -/
theorem C8_readiness_timeout (h : Host) (g : geesefsMounter) (target volumeID : String)
    (args : List String) (w : World) :
    (∀ u m ps,
      Event.startTransientUnit u m ps ∈
        newEvents w (MountSystemd h g target volumeID args w) →
      h.startTransientUnit u ps = none →
      (MountSystemd h g target volumeID args w).1 =
        h.waitForMount target (10 * 1000000000) ∧
      ∀ err, h.waitForMount target (10 * 1000000000) = some err →
        (MountSystemd h g target volumeID args w).1 = some err ∧
        (MountSystemd h g target volumeID args w).1 ≠ none) ∧
    (∀ ns pod,
      Event.podsCreate ns pod ∈ newEvents w (MountPod h g target volumeID args w) →
      h.podsCreate pod = none →
      (MountPod h g target volumeID args w).1 =
        h.waitForMount target (20 * 1000000000) ∧
      ∀ err, h.waitForMount target (20 * 1000000000) = some err →
        (MountPod h g target volumeID args w).1 = some err ∧
        (MountPod h g target volumeID args w).1 ≠ none) ∧
    (h.systemdNew = none →
      (CopyBinary h "/usr/bin/geesefs" "/csi/geesefs" (w.emit .systemdNew)).1 = none →
      (∀ props s, h.getAllProperties (unitName h volumeID) = .ok props →
        props "ActiveState" = some (.str s) → isActive s = false) →
      h.startTransientUnit (unitName h volumeID)
        (newProps g volumeID (systemdArgs g w.environ args)) = none →
      (MountSystemd h g target volumeID args w).1 =
        h.waitForMount target (10 * 1000000000) ∧
      Event.startTransientUnit (unitName h volumeID) "replace"
          (newProps g volumeID (systemdArgs g w.environ args)) ∈
        newEvents w (MountSystemd h g target volumeID args w) ∧
      Event.waitForMount target (10 * 1000000000) ∈
        newEvents w (MountSystemd h g target volumeID args w)) ∧
    ((initClientset h w).1 = none →
      h.podsCreate (mountPodSpec h g target volumeID args w.environ) = none →
      (MountPod h g target volumeID args w).1 =
        h.waitForMount target (20 * 1000000000) ∧
      Event.podsCreate "kube-system" (mountPodSpec h g target volumeID args w.environ) ∈
        newEvents w (MountPod h g target volumeID args w) ∧
      Event.waitForMount target (20 * 1000000000) ∈
        newEvents w (MountPod h g target volumeID args w)) := by
  refine ⟨?_, ?_, ?_, ?_⟩
  · intro u m ps hmem hok
    obtain ⟨hu, _, hps, hres⟩ := MountSystemd_start h g target volumeID args w u m ps hmem
    have hw : (MountSystemd h g target volumeID args w).1 =
        h.waitForMount target (10 * 1000000000) := by
      rw [hres]
      unfold startOutcome
      rw [← hu, ← hps, hok]
      rfl
    refine ⟨hw, ?_⟩
    intro err herr
    rw [hw, herr]
    simp
  · intro ns pod hmem hok
    have hw : (MountPod h g target volumeID args w).1 =
        h.waitForMount target (20 * 1000000000) :=
      MountPod_after_create h g target volumeID args w ns pod hmem hok
    refine ⟨hw, ?_⟩
    intro err herr
    rw [hw, herr]
    simp
  · intro hnew hcopy hinactive hstart
    exact MountSystemd_started h g target volumeID args w hnew hcopy hinactive hstart
  · intro hinit hok
    obtain ⟨hres, hev⟩ := MountPod_created h g target volumeID args w hinit hok
    refine ⟨hres, ?_, ?_⟩
    · rw [hev]
      simp
    · rw [hev]
      simp [Second]

theorem C8_readiness_timeout_witness :
    (timeoutHost.systemdNew = none ∧
      (CopyBinary timeoutHost "/usr/bin/geesefs" "/csi/geesefs"
        (exampleWorld.emit .systemdNew)).1 = none ∧
      (MountSystemd timeoutHost (exampleMounter "mybucket" "data" ["--use-systemd"])
          "/mnt/x" "vol-1" ["mybucket:data", "/mnt/x"] exampleWorld).1 =
        some "Timeout waiting for mount /mnt/x") ∧
    ((initClientset timeoutHost exampleWorld).1 = none ∧
      (MountPod timeoutHost (exampleMounter "mybucket" "data" []) "/mnt/x" "vol-1"
          ["mybucket:data", "/mnt/x"] exampleWorld).1 =
        some "Timeout waiting for mount /mnt/x") :=
  ⟨⟨rfl, by decide,
      ((C8_readiness_timeout timeoutHost (exampleMounter "mybucket" "data" ["--use-systemd"])
        "/mnt/x" "vol-1" ["mybucket:data", "/mnt/x"] exampleWorld).2.2.1
        rfl (by decide) (fun _ _ hg _ => nomatch hg) rfl).1⟩,
    ⟨by decide,
      ((C8_readiness_timeout timeoutHost (exampleMounter "mybucket" "data" [])
        "/mnt/x" "vol-1" ["mybucket:data", "/mnt/x"] exampleWorld).2.2.2
        (by decide) rfl).1⟩⟩

end Mounter
